import Mathlib

/-!
Verification of the OZMetaDB portable expression/metric compiler
(`src/compiler/dsl/parser.py`, `src/compiler/dsl/compiler.py`,
`src/compiler/metrics/parser.py`, `src/compiler/metrics/compiler.py`).

The Python code is shallowly embedded: JSON-like documents become the
inductive `DVal`; the two expression grammars become inductive trees;
each Python function becomes a Lean function of the same name (modulo
naming rules).  Python exceptions (IndexError, TypeError, AttributeError)
are modelled by `Option`: a function returns `none` exactly when the
Python original raises.  The mutable metrics cache is modelled by
explicit state passing.  JSON floating point values are carried
symbolically (constructor `vFloatStr`) because floating point does not
embed; no claim depends on them.  `json.loads` is a host-library
function, not repository code, so it is passed as an explicit parameter
`jl : String -> Option DVal` wherever the source calls it.
-/

namespace OZMeta

/- JSON-like Python value (the untyped documents the compilers consume).
Lists and objects use mutually inductive list types so that all
recursion over values is structural.  Python dict iteration order is the
insertion order of the association list. -/
mutual

inductive DVal : Type
  | vNull : DVal
  | vBool (b : Bool) : DVal
  | vInt (n : Int) : DVal
  | vFloatStr (s : String) : DVal
  | vStr (s : String) : DVal
  | vArr (elems : DList) : DVal
  | vObj (fields : DKV) : DVal
deriving DecidableEq

inductive DList : Type
  | nil : DList
  | cons (hd : DVal) (tl : DList) : DList
deriving DecidableEq

inductive DKV : Type
  | nil : DKV
  | cons (key : String) (val : DVal) (tl : DKV) : DKV
deriving DecidableEq

end

/-- Python `dict.get` / `dict[...]`: first binding of the key wins. -/
def DKV.lookup : DKV → String → Option DVal
  | .nil, _ => none
  | .cons k v tl, key => if k = key then some v else tl.lookup key

/-- Python `key in dict`. -/
def DKV.hasKey (kvs : DKV) (key : String) : Bool :=
  (kvs.lookup key).isSome

/-- Keys in order (Python dict iteration yields keys). -/
def DKV.keys : DKV → List String
  | .nil => []
  | .cons k _ tl => k :: tl.keys

def DList.toList : DList → List DVal
  | .nil => []
  | .cons h t => h :: t.toList

/-- Python truthiness of a JSON-like value.  For the symbolic float the
zero spellings are the falsy ones. -/
def DVal.truthy : DVal → Bool
  | .vNull => false
  | .vBool b => b
  | .vInt n => n != 0
  | .vFloatStr s => !(s = "0.0" || s = "-0.0" || s = "0")
  | .vStr s => s ≠ ""
  | .vArr .nil => false
  | .vArr _ => true
  | .vObj .nil => false
  | .vObj _ => true

/-- Python `a or b` for an optional left operand (absent key = `None`). -/
def pyOr2 (a : Option DVal) (b : Option DVal) : Option DVal :=
  match a with
  | some v => if v.truthy then some v else b
  | none => b

/-- Python `a or b` with a mandatory right operand. -/
def pyOr (a : Option DVal) (b : DVal) : DVal :=
  match a with
  | some v => if v.truthy then v else b
  | none => b

/- Kernel-friendly string primitives.  The byte-position based
implementations in core (`String.toLower`, `String.splitOn`, ...) do not
reduce well inside `decide`/`rfl`, so the Python string operations are
modelled directly on the character list.  Python `str.lower`/`str.upper`
are Unicode-aware; every string these compilers case-fold is ASCII, so
the ASCII mapping is used. -/

def pyLowerChar (c : Char) : Char :=
  if c.toNat ≥ 65 && c.toNat ≤ 90 then Char.ofNat (c.toNat + 32) else c

def pyUpperChar (c : Char) : Char :=
  if c.toNat ≥ 97 && c.toNat ≤ 122 then Char.ofNat (c.toNat - 32) else c

/-- Python `str.lower` (ASCII). -/
def pyLower (s : String) : String := String.mk (s.data.map pyLowerChar)

/-- Python `str.upper` (ASCII). -/
def pyUpper (s : String) : String := String.mk (s.data.map pyUpperChar)

/-- Python `str.startswith`. -/
def pyStartsWith (s pre : String) : Bool := pre.data.isPrefixOf s.data

/-- Python `s[n:]`. -/
def pyDrop (s : String) (n : Nat) : String := String.mk (s.data.drop n)

/-- Non-overlapping left-to-right replacement, fuelled by the text
length (structural recursion so that proofs can evaluate it). -/
def listReplaceF : Nat → List Char → List Char → List Char → List Char
  | 0, hay, _, _ => hay
  | fuel + 1, hay, needle, repl =>
    match hay with
    | [] => []
    | c :: rest =>
      if needle.isPrefixOf (c :: rest) then
        repl ++ listReplaceF fuel ((c :: rest).drop needle.length) needle repl
      else
        c :: listReplaceF fuel rest needle repl

/-- Python `str.replace` (for the non-empty patterns the compilers use:
a quote character). -/
def pyReplace (s pat repl : String) : String :=
  if pat = "" then s
  else String.mk (listReplaceF s.data.length s.data pat.data repl.data)

/-- Python `str.split(sep)` for a one-character separator (the only
form the compilers use, `"."`). -/
def splitOnChar (sep : Char) : List Char → List (List Char)
  | [] => [[]]
  | c :: rest =>
    match splitOnChar sep rest with
    | [] => [[]]
    | g :: gs => if c = sep then [] :: g :: gs else (c :: g) :: gs

/-- Python `str.split(sep, 1)` for a one-character separator: split at
the first occurrence only. -/
def splitFirstChar (sep : Char) (s : String) : List String :=
  match splitOnChar sep s.data with
  | [] => [s]
  | [g] => [String.mk g]
  | g :: gs => [String.mk g, String.intercalate (String.singleton sep) (gs.map String.mk)]

/-- Python `substring in string`. -/
def pyInList (n : List Char) : List Char → Bool
  | [] => n.isEmpty
  | c :: rest => n.isPrefixOf (c :: rest) || pyInList n rest

def pyInStr (needle hay : String) : Bool :=
  pyInList needle.data hay.data

/-- Python `repr` of a string: single quoted, internal quotes and
backslashes escaped (Python switches to double quotes when the string
contains a single quote but no double quote). -/
def pyReprString (s : String) : String :=
  let hasSingle := s.data.contains '\''
  let hasDouble := s.data.contains '"'
  if hasSingle && !hasDouble then
    "\"" ++ String.mk (s.data.flatMap fun c => if c = '\\' then ['\\', '\\'] else [c]) ++ "\""
  else
    "'" ++ String.mk (s.data.flatMap fun c =>
      if c = '\\' then ['\\', '\\'] else if c = '\'' then ['\\', '\''] else [c]) ++ "'"

mutual

/-- Python `repr` of a JSON-like value (brace characters written with
escapes). -/
def pyRepr : DVal → String
  | .vNull => "None"
  | .vBool b => if b then "True" else "False"
  | .vInt n => toString n
  | .vFloatStr s => s
  | .vStr s => pyReprString s
  | .vArr l => "[" ++ String.intercalate ", " (pyReprList l) ++ "]"
  | .vObj kvs => "\x7b" ++ String.intercalate ", " (pyReprKV kvs) ++ "\x7d"

def pyReprList : DList → List String
  | .nil => []
  | .cons h t => pyRepr h :: pyReprList t

def pyReprKV : DKV → List String
  | .nil => []
  | .cons k v t => (pyReprString k ++ ": " ++ pyRepr v) :: pyReprKV t

end

/-- Python `str` of a JSON-like value: identity on strings, `repr`
otherwise (the symbolic float prints as its text). -/
def pyStr : DVal → String
  | .vStr s => s
  | .vFloatStr s => s
  | v => pyRepr v

/-- Python `str(x)` for an optional value (`None` prints as `None`). -/
def pyStrOpt : Option DVal → String
  | some v => pyStr v
  | none => "None"

/- Guard expression tree (`src/compiler/dsl/parser.py`): the tagged union
`Literal | Ref | Op`.  The dataclass fields are untyped in Python, so the
literal value, the reference path, the cast tag and the operator name are
all carried as `DVal`; the compiler raises (returns `none` here) when a
non-string reaches a string operation. -/
mutual

inductive GExpr : Type
  | lit (value : DVal) (ty : Option DVal) : GExpr
  | ref (path : DVal) (castTo : Option DVal) : GExpr
  | op (name : DVal) (args : GArgs) : GExpr
deriving DecidableEq

inductive GArgs : Type
  | nil : GArgs
  | cons (hd : GExpr) (tl : GArgs) : GArgs
deriving DecidableEq

end

def GArgs.toList : GArgs → List GExpr
  | .nil => []
  | .cons h t => h :: t.toList

def GArgs.ofList : List GExpr → GArgs
  | [] => .nil
  | h :: t => .cons h (GArgs.ofList t)

/-- Python `parse_expr` on a plain string (the shorthand branch of
`parse_expr`): `allow`/`true`/`1=1` and `deny`/`false`/`1=0` become
boolean literals, `tenant` becomes the tenant-equality operation, any
other string a string literal. -/
def parseGuardString (s : String) : GExpr :=
  if s = "allow" ∨ s = "true" ∨ s = "1=1" then
    .lit (.vBool true) (some (.vStr "boolean"))
  else if s = "deny" ∨ s = "false" ∨ s = "1=0" then
    .lit (.vBool false) (some (.vStr "boolean"))
  else if s = "tenant" then
    .op (.vStr "eq") (.cons (.ref (.vStr "_TenantID") none)
      (.cons (.ref (.vStr "context.tenantId") none) .nil))
  else
    .lit (.vStr s) (some (.vStr "string"))

mutual

/-- Python `parse_expr` (guard grammar), fuelled: the Python function recurses
through dictionary lookups, so the recursion is made structural on a
fuel argument; the exported wrapper `parse_expr` supplies fuel that is
always sufficient (`none` from fuel exhaustion is unreachable).  A
`none` result models a raised exception: iterating a non-iterable
`args` value (TypeError).  Python happily iterates strings (yielding
one-character strings) and dicts (yielding keys). -/
def parseExprF : Nat → DVal → Option GExpr
  | 0, _ => none
  | _ + 1, .vNull => some (.lit .vNull (some (.vStr "null")))
  | _ + 1, .vBool b => some (.lit (.vBool b) (some (.vStr "boolean")))
  | _ + 1, .vInt n => some (.lit (.vInt n) (some (.vStr "number")))
  | _ + 1, .vFloatStr s => some (.lit (.vFloatStr s) (some (.vStr "number")))
  | _ + 1, .vStr s => some (parseGuardString s)
  | _ + 1, .vArr l => some (.lit (.vArr l) (some (.vStr "unknown")))
  | fuel + 1, .vObj kvs =>
    match kvs.lookup "lit" with
    | some v => some (.lit v (kvs.lookup "type"))
    | none =>
      match kvs.lookup "ref" with
      | some v => some (.ref v (kvs.lookup "as"))
      | none =>
        match kvs.lookup "op" with
        | some opv =>
          match parseGuardArgsF fuel (kvs.lookup "args") with
          | some args => some (.op opv args)
          | none => none
        | none => some (.lit (.vObj kvs) (some (.vStr "object")))

/-- The `[parse_expr(a) for a in node.get("args", [])]` comprehension:
absent key iterates the empty list; a string iterates its characters; a
dict iterates its keys; numbers, booleans and null raise TypeError. -/
def parseGuardArgsF : Nat → Option DVal → Option GArgs
  | 0, _ => none
  | _ + 1, none => some .nil
  | fuel + 1, some (.vArr l) => parseGuardListF fuel l
  | _ + 1, some (.vStr s) =>
    some (GArgs.ofList (s.data.map fun c => parseGuardString (String.singleton c)))
  | _ + 1, some (.vObj kvs) =>
    some (GArgs.ofList (kvs.keys.map parseGuardString))
  | _ + 1, some _ => none

def parseGuardListF : Nat → DList → Option GArgs
  | 0, _ => none
  | _ + 1, .nil => some .nil
  | fuel + 1, .cons h t =>
    match parseExprF fuel h with
    | some e =>
      match parseGuardListF fuel t with
      | some rest => some (.cons e rest)
      | none => none
    | none => none

end

mutual

/-- Fuel bound: strictly larger than the recursion depth of
`parse_expr` on the value. -/
def DVal.fuel : DVal → Nat
  | .vNull | .vBool _ | .vInt _ | .vFloatStr _ | .vStr _ => 1
  | .vArr l => l.fuelL + 2
  | .vObj kvs => kvs.fuelKV + 2

def DList.fuelL : DList → Nat
  | .nil => 1
  | .cons h t => h.fuel + t.fuelL + 1

def DKV.fuelKV : DKV → Nat
  | .nil => 1
  | .cons _ v t => v.fuel + t.fuelKV + 1

end

/-- Python `parse_expr` from `src/compiler/dsl/parser.py`. -/
def parse_expr (node : DVal) : Option GExpr :=
  parseExprF node.fuel node

/-- Result of `parse_dsl`: the dictionary it builds, as a record.
`expr = none` models the `expr` key being absent. -/
structure ParsedDSL where
  kind : DVal
  version : DVal
  description : Option DVal
  params : Option DVal
  expr : Option GExpr
  actions : Option DVal
deriving DecidableEq

/-- The `Guard`/`false` degradation document produced by `parse_dsl` for
unparseable input. -/
def guardFalseResult : ParsedDSL :=
  { kind := .vStr "Guard", version := .vInt 1, description := none,
    params := none,
    expr := some (.lit (.vBool false) (some (.vStr "boolean"))),
    actions := none }

/-- Python `dict.get(key, default)`. -/
def DKV.getD (kvs : DKV) (k : String) (d : DVal) : DVal := (kvs.lookup k).getD d

/-- The dictionary branch of `parse_dsl` (after any `json.loads`). -/
def parseDslDict (kvs : DKV) : Option ParsedDSL :=
  let base : ParsedDSL :=
    { kind := kvs.getD "kind" (.vStr "Guard"),
      version := kvs.getD "version" (.vInt 1),
      description := kvs.lookup "description",
      params := kvs.lookup "params",
      expr := none,
      actions := kvs.lookup "actions" }
  match kvs.lookup "expr" with
  | some raw =>
    match parse_expr raw with
    | some e => some { base with expr := some e }
    | none => none
  | none => some base

/-- Python `parse_dsl` from `src/compiler/dsl/parser.py`.  `jl` stands for
`json.loads` (host library): `none` models `JSONDecodeError`. -/
def parse_dsl (jl : String → Option DVal) (dsl : DVal) : Option ParsedDSL :=
  match dsl with
  | .vStr s =>
    if s = "allow" ∨ s = "true" ∨ s = "1=1" then
      some { guardFalseResult with
        expr := some (.lit (.vBool true) (some (.vStr "boolean"))) }
    else if s = "deny" ∨ s = "false" ∨ s = "1=0" then
      some guardFalseResult
    else if s = "tenant" then
      some { guardFalseResult with
        expr := some (.op (.vStr "eq") (.cons (.ref (.vStr "_TenantID") none)
          (.cons (.ref (.vStr "context.tenantId") none) .nil))) }
    else
      match jl s with
      | some (.vObj kvs) => parseDslDict kvs
      | some _ => some guardFalseResult
      | none => some guardFalseResult
  | .vObj kvs => parseDslDict kvs
  | _ => some guardFalseResult

/- Guard compiler (`src/compiler/dsl/compiler.py`).  The per-target
lexical settings installed by `_setup_dialect` are the fields of this
record; `target` is kept because several operator templates branch on
it directly. -/
structure DSLCompiler where
  target : String
  id_quote : String
  id_quote_end : String
  str_quote : String
  true_lit : String
  false_lit : String
  null_lit : String
  concat_op : String
  current_timestamp : String
deriving DecidableEq

/-- Python `DSLCompiler.__init__` + `_setup_dialect`: lower-case the target and
install the dialect settings, ANSI SQL for unknown targets. -/
def DSLCompiler.create (target : String) : DSLCompiler :=
  let t := pyLower target
  if t = "tsql" ∨ t = "sqlserver" then
    ⟨t, "[", "]", "'", "1", "0", "NULL", "+", "GETUTCDATE()"⟩
  else if t = "postgres" then
    ⟨t, "\"", "\"", "'", "TRUE", "FALSE", "NULL", "||", "NOW()"⟩
  else if t = "snowflake" then
    ⟨t, "\"", "\"", "'", "TRUE", "FALSE", "NULL", "||", "CURRENT_TIMESTAMP()"⟩
  else if t = "spark" ∨ t = "databricks" then
    ⟨t, "`", "`", "'", "TRUE", "FALSE", "NULL", "||", "CURRENT_TIMESTAMP()"⟩
  else if t = "bigquery" then
    ⟨t, "`", "`", "'", "TRUE", "FALSE", "NULL", "||", "CURRENT_TIMESTAMP()"⟩
  else
    ⟨t, "\"", "\"", "'", "TRUE", "FALSE", "NULL", "||", "CURRENT_TIMESTAMP"⟩

/-- Python `quote_identifier`: quote each dot-separated path segment. -/
def DSLCompiler.quote_identifier (c : DSLCompiler) (name : String) : String :=
  String.intercalate "."
    ((splitOnChar (Char.ofNat 46) name.data).map
      fun p => c.id_quote ++ String.mk p ++ c.id_quote_end)

/-- Python `quote_string`: double internal quotes, wrap in quotes. -/
def DSLCompiler.quote_string (c : DSLCompiler) (value : String) : String :=
  c.str_quote ++ pyReplace value c.str_quote (c.str_quote ++ c.str_quote) ++ c.str_quote

/-- Python `compile_literal`. -/
def DSLCompiler.compile_literal (c : DSLCompiler) (value : DVal) : String :=
  match value with
  | .vNull => c.null_lit
  | .vBool b => if b then c.true_lit else c.false_lit
  | .vInt n => toString n
  | .vFloatStr s => s
  | .vStr s => c.quote_string s
  | v => c.quote_string (pyStr v)

/-- Python `_context_tenant_id`. -/
def DSLCompiler.context_tenant_id (c : DSLCompiler) : String :=
  if c.target = "tsql" ∨ c.target = "sqlserver" then "SESSION_CONTEXT(N'TenantId')"
  else if c.target = "postgres" then "current_setting('app.tenant_id')"
  else if c.target = "snowflake" then "CURRENT_SESSION()::VARIANT:tenant_id"
  else if c.target = "spark" ∨ c.target = "databricks" then "current_user()"
  else "@TenantId"

/-- Python `_context_user_id`. -/
def DSLCompiler.context_user_id (c : DSLCompiler) : String :=
  if c.target = "tsql" ∨ c.target = "sqlserver" then "SESSION_CONTEXT(N'UserId')"
  else if c.target = "postgres" then "current_setting('app.user_id')"
  else if c.target = "snowflake" then "CURRENT_USER()"
  else if c.target = "spark" ∨ c.target = "databricks" then "current_user()"
  else "@UserId"

/-- Python `_user_ref`. -/
def DSLCompiler.user_ref (c : DSLCompiler) (fieldName : String) : String :=
  if fieldName = "role" then
    if c.target = "tsql" ∨ c.target = "sqlserver" then "SESSION_CONTEXT(N'UserRole')"
    else "@UserRole"
  else if fieldName = "roles" then
    if c.target = "tsql" ∨ c.target = "sqlserver" then "SESSION_CONTEXT(N'UserRoles')"
    else "@UserRoles"
  else "@User_" ++ fieldName

/-- Python `_apply_cast`: the type map, falling back to the upper-cased cast
keyword. -/
def DSLCompiler.apply_cast (c : DSLCompiler) (e : String) (castType : String) : String :=
  let tsql := c.target = "tsql" ∨ c.target = "sqlserver"
  let lower := pyLower castType
  let sqlType :=
    if lower = "int" then "INT"
    else if lower = "integer" then "INT"
    else if lower = "string" then (if tsql then "VARCHAR(MAX)" else "TEXT")
    else if lower = "boolean" then (if tsql then "BIT" else "BOOLEAN")
    else if lower = "datetime" then (if tsql then "DATETIME2" else "TIMESTAMP")
    else pyUpper castType
  "CAST(" ++ e ++ " AS " ++ sqlType ++ ")"

/-- Python `compile_ref`.  `none` models the exceptions Python raises when the
reference path is not a string (`.startswith` on a non-string, or an
unhashable path used as a dict key). -/
def DSLCompiler.compile_ref (c : DSLCompiler) (path : DVal) (castTo : Option DVal)
    (ctx : List (String × String)) : Option String :=
  match path with
  | .vStr p =>
    match ctx.lookup p with
    | some v => some v
    | none =>
      if pyStartsWith p "context." then
        let ctxKey := pyDrop p 8
        if ctxKey = "tenantId" then some c.context_tenant_id
        else if ctxKey = "userId" then some c.context_user_id
        else if ctxKey = "now" then some c.current_timestamp
        else some ("@" ++ ctxKey)
      else if pyStartsWith p "user." then
        some (c.user_ref (pyDrop p 5))
      else
        let result := c.quote_identifier p
        match castTo with
        | some cv =>
          if cv.truthy then
            match cv with
            | .vStr cs => some (c.apply_cast result cs)
            | _ => none
          else some result
        | none => some result
  | _ => none

/-- Python `_compile_contains`. -/
def DSLCompiler.compile_contains (c : DSLCompiler) (f v : String) : String :=
  if c.target = "tsql" ∨ c.target = "sqlserver" then
    "(CHARINDEX(" ++ v ++ ", " ++ f ++ ") > 0)"
  else
    "(" ++ f ++ " LIKE '%' " ++ c.concat_op ++ " " ++ v ++ " " ++ c.concat_op ++ " '%')"

/-- Python `_compile_startswith`. -/
def DSLCompiler.compile_startswith (c : DSLCompiler) (f v : String) : String :=
  if c.target = "tsql" ∨ c.target = "sqlserver" then
    "(" ++ f ++ " LIKE " ++ v ++ " + '%')"
  else
    "(" ++ f ++ " LIKE " ++ v ++ " " ++ c.concat_op ++ " '%')"

/-- Python `_compile_endswith`. -/
def DSLCompiler.compile_endswith (c : DSLCompiler) (f v : String) : String :=
  if c.target = "tsql" ∨ c.target = "sqlserver" then
    "(" ++ f ++ " LIKE '%' + " ++ v ++ ")"
  else
    "(" ++ f ++ " LIKE '%' " ++ c.concat_op ++ " " ++ v ++ ")"

/-- Python `_compile_regex`. -/
def DSLCompiler.compile_regex (c : DSLCompiler) (f pat : String) : String :=
  if c.target = "tsql" ∨ c.target = "sqlserver" then "(" ++ f ++ " LIKE " ++ pat ++ ")"
  else if c.target = "postgres" then "(" ++ f ++ " ~ " ++ pat ++ ")"
  else if c.target = "snowflake" then "(REGEXP_LIKE(" ++ f ++ ", " ++ pat ++ "))"
  else if c.target = "spark" ∨ c.target = "databricks" then "(" ++ f ++ " RLIKE " ++ pat ++ ")"
  else "(REGEXP_LIKE(" ++ f ++ ", " ++ pat ++ "))"

def isQuoteChar (ch : Char) : Bool := ch = '\'' || ch = '"'

/-- Python `str.strip` over the two quote characters. -/
def stripQuoteChars (s : String) : String :=
  String.mk (((s.data.dropWhile isQuoteChar).reverse.dropWhile isQuoteChar).reverse)

/-- Python `_compile_dateadd`: fewer than three arguments degrade to `NULL`. -/
def DSLCompiler.compile_dateadd (c : DSLCompiler) (args : List String) : String :=
  match args with
  | unit :: amount :: date :: _ =>
    let uc := pyUpper (stripQuoteChars unit)
    if c.target = "tsql" ∨ c.target = "sqlserver" then
      "DATEADD(" ++ uc ++ ", " ++ amount ++ ", " ++ date ++ ")"
    else if c.target = "postgres" then
      "(" ++ date ++ " + INTERVAL '" ++ amount ++ " " ++ uc ++ "')"
    else if c.target = "snowflake" then
      "DATEADD(" ++ uc ++ ", " ++ amount ++ ", " ++ date ++ ")"
    else if c.target = "spark" ∨ c.target = "databricks" then
      if uc = "DAY" ∨ uc = "DAYS" then "DATE_ADD(" ++ date ++ ", " ++ amount ++ ")"
      else "(" ++ date ++ " + INTERVAL " ++ amount ++ " " ++ uc ++ ")"
    else
      "DATEADD(" ++ uc ++ ", " ++ amount ++ ", " ++ date ++ ")"
  | _ => "NULL"

/-- Python `_compile_datediff_minutes`. -/
def DSLCompiler.compile_datediff_minutes (c : DSLCompiler) (d1 d2 : String) : String :=
  if c.target = "tsql" ∨ c.target = "sqlserver" then
    "DATEDIFF(MINUTE, " ++ d1 ++ ", " ++ d2 ++ ")"
  else if c.target = "postgres" then
    "EXTRACT(EPOCH FROM (" ++ d2 ++ " - " ++ d1 ++ ")) / 60"
  else if c.target = "snowflake" then
    "DATEDIFF(MINUTE, " ++ d1 ++ ", " ++ d2 ++ ")"
  else if c.target = "spark" ∨ c.target = "databricks" then
    "(UNIX_TIMESTAMP(" ++ d2 ++ ") - UNIX_TIMESTAMP(" ++ d1 ++ ")) / 60"
  else
    "DATEDIFF(MINUTE, " ++ d1 ++ ", " ++ d2 ++ ")"

/-- Binary template `(a <sep> b)`, raising (=`none`) when fewer than two
arguments exist — Python indexes `args[0]`/`args[1]` directly. -/
def binTemplate (compiled : List String) (sep : String) : Option String :=
  match compiled with
  | a :: b :: _ => some ("(" ++ a ++ sep ++ b ++ ")")
  | _ => none

/-- Unary template, raising when no argument exists. -/
def unTemplate (compiled : List String) (pre post : String) : Option String :=
  match compiled with
  | a :: _ => some (pre ++ a ++ post)
  | _ => none

/-- The operator dispatch of `compile_op` after the arguments are
compiled: each recognized name maps to its textual template (raising —
`none` — when it indexes past the argument list), and unknown names
render as an upper-cased function call.  The `case` operator re-compiles
the raw argument list pairwise; its result is received here as
`caseRes` (computed by the caller from the same arguments, so it is
exactly what the source computes inside that branch). -/
def DSLCompiler.renderOp (c : DSLCompiler) (nm : String) (compiled : List String)
    (caseRes : Option (List String)) : Option String :=
  let opName := pyLower nm
  if opName = "and" then some ("(" ++ String.intercalate " AND " compiled ++ ")")
  else if opName = "or" then some ("(" ++ String.intercalate " OR " compiled ++ ")")
  else if opName = "not" then unTemplate compiled "(NOT " ")"
  else if opName = "eq" then binTemplate compiled " = "
  else if opName = "ne" then binTemplate compiled " <> "
  else if opName = "gt" then binTemplate compiled " > "
  else if opName = "gte" then binTemplate compiled " >= "
  else if opName = "lt" then binTemplate compiled " < "
  else if opName = "lte" then binTemplate compiled " <= "
  else if opName = "in" then
    match compiled with
    | a :: rest => some ("(" ++ a ++ " IN (" ++ String.intercalate ", " rest ++ "))")
    | [] => none
  else if opName = "isnull" then unTemplate compiled "(" " IS NULL)"
  else if opName = "isnotnull" then unTemplate compiled "(" " IS NOT NULL)"
  else if opName = "add" then binTemplate compiled " + "
  else if opName = "sub" then binTemplate compiled " - "
  else if opName = "mul" then binTemplate compiled " * "
  else if opName = "div" then binTemplate compiled " / "
  else if opName = "contains" then
    match compiled with
    | a :: b :: _ => some (c.compile_contains a b)
    | _ => none
  else if opName = "startswith" then
    match compiled with
    | a :: b :: _ => some (c.compile_startswith a b)
    | _ => none
  else if opName = "endswith" then
    match compiled with
    | a :: b :: _ => some (c.compile_endswith a b)
    | _ => none
  else if opName = "concat" then
    some ("(" ++ String.intercalate (" " ++ c.concat_op ++ " ") compiled ++ ")")
  else if opName = "regex" then
    match compiled with
    | a :: b :: _ => some (c.compile_regex a b)
    | _ => none
  else if opName = "dateadd" then some (c.compile_dateadd compiled)
  else if opName = "datediffminutes" then
    match compiled with
    | a :: b :: _ => some (c.compile_datediff_minutes a b)
    | _ => none
  else if opName = "coalesce" then
    some ("COALESCE(" ++ String.intercalate ", " compiled ++ ")")
  else if opName = "case" then
    match caseRes with
    | some parts => some (String.intercalate " " ("CASE" :: (parts ++ ["END"])))
    | none => none
  else if opName = "exists" then unTemplate compiled "EXISTS (" ")"
  else some (pyUpper opName ++ "(" ++ String.intercalate ", " compiled ++ ")")

mutual

/-- Python `compile_expr` (guard grammar): dispatch on the node kind.  A `none`
result models a raised exception (operator applied to too few
arguments, or a non-string operator name / reference path).  In the
`Op` branch all arguments are compiled first (the Python list
comprehension in `compile_op`), then `renderOp` dispatches on the
operator name. -/
def DSLCompiler.compile_expr (c : DSLCompiler) (ctx : List (String × String)) :
    GExpr → Option String
  | .lit v _ => some (c.compile_literal v)
  | .ref p castTo => c.compile_ref p castTo ctx
  | .op name args =>
    match name with
    | .vStr nm =>
      match c.compileArgs ctx args with
      | none => none
      | some compiled => c.renderOp nm compiled (c.compileCaseParts ctx args)
    | _ => none

/-- Compile every argument in order (the list comprehension in
`compile_op`); the first exception aborts. -/
def DSLCompiler.compileArgs (c : DSLCompiler) (ctx : List (String × String)) :
    GArgs → Option (List String)
  | .nil => some []
  | .cons h t =>
    match c.compile_expr ctx h with
    | some s =>
      match c.compileArgs ctx t with
      | some rest => some (s :: rest)
      | none => none
    | none => none

/-- Python `_compile_case`: alternating condition/result pairs with an optional
trailing else. -/
def DSLCompiler.compileCaseParts (c : DSLCompiler) (ctx : List (String × String)) :
    GArgs → Option (List String)
  | .nil => some []
  | .cons a .nil =>
    match c.compile_expr ctx a with
    | some ea => some ["ELSE " ++ ea]
    | none => none
  | .cons a (.cons b rest) =>
    match c.compile_expr ctx a with
    | some ea =>
      match c.compile_expr ctx b with
      | some eb =>
        match c.compileCaseParts ctx rest with
        | some parts => some (("WHEN " ++ ea ++ " THEN " ++ eb) :: parts)
        | none => none
      | none => none
    | none => none

end

/-- Python `compile_op` as a named entry point (the source method): identical
to the `Op` branch of `compile_expr`. -/
def DSLCompiler.compile_op (c : DSLCompiler) (name : DVal) (args : GArgs)
    (ctx : List (String × String)) : Option String :=
  c.compile_expr ctx (.op name args)

/-- Python `compile_guard`: parse shorthand/documents, default-allow when no
expression is present. -/
def DSLCompiler.compile_guard (c : DSLCompiler) (jl : String → Option DVal)
    (dsl : DVal) : Option String :=
  let exprRes : Option (Option GExpr) :=
    match dsl with
    | .vStr _ =>
      match parse_dsl jl dsl with
      | some p => some p.expr
      | none => none
    | .vObj kvs =>
      match kvs.lookup "expr" with
      | some raw =>
        match parse_expr raw with
        | some e => some (some e)
        | none => none
      | none =>
        if kvs.hasKey "op" || kvs.hasKey "ref" || kvs.hasKey "lit" then
          match parse_expr (.vObj kvs) with
          | some e => some (some e)
          | none => none
        else
          match parse_dsl jl (.vObj kvs) with
          | some p => some p.expr
          | none => none
    | _ => some (some (.lit (.vBool false) (some (.vStr "boolean"))))
  match exprRes with
  | none => none
  | some none => some c.true_lit
  | some (some e) => c.compile_expr [] e

/-- Python `compile_dsl` / `compile_guard_to_sql` convenience entry point. -/
def compile_dsl (jl : String → Option DVal) (dsl : DVal) (target : String) :
    Option String :=
  (DSLCompiler.create target).compile_guard jl dsl

end OZMeta

namespace OZMeta

/-- Builder for association lists (used by concrete documents). -/
def DKV.ofList : List (String × DVal) → DKV
  | [] => .nil
  | (k, v) :: t => .cons k v (DKV.ofList t)

def DList.ofList : List DVal → DList
  | [] => .nil
  | h :: t => .cons h (DList.ofList t)

def dObj (l : List (String × DVal)) : DVal := .vObj (DKV.ofList l)

def dArr (l : List DVal) : DVal := .vArr (DList.ofList l)

/- Metric grammar (`src/compiler/metrics/parser.py`). -/

/-- Python `AggFunc` enumeration (12 aggregation functions). -/
inductive AggFunc : Type
  | SUM | COUNT | AVG | MIN | MAX | DISTINCTCOUNT
  | COUNTROWS | FIRST | LAST | STDEV | VAR | MEDIAN
deriving DecidableEq

/-- Python `AggFunc.value`. -/
def AggFunc.value : AggFunc → String
  | .SUM => "SUM"
  | .COUNT => "COUNT"
  | .AVG => "AVG"
  | .MIN => "MIN"
  | .MAX => "MAX"
  | .DISTINCTCOUNT => "DISTINCTCOUNT"
  | .COUNTROWS => "COUNTROWS"
  | .FIRST => "FIRST"
  | .LAST => "LAST"
  | .STDEV => "STDEV"
  | .VAR => "VAR"
  | .MEDIAN => "MEDIAN"

/-- Declaration order of the enumeration (the string-shorthand prefix
loop iterates it in this order). -/
def aggFuncList : List AggFunc :=
  [.SUM, .COUNT, .AVG, .MIN, .MAX, .DISTINCTCOUNT,
   .COUNTROWS, .FIRST, .LAST, .STDEV, .VAR, .MEDIAN]

/-- Python `AggFunc(s)`: value lookup, `none` models `ValueError`. -/
def aggFuncOfString (s : String) : Option AggFunc :=
  (aggFuncList.find? fun f => f.value = s)

/-- Python `TimeIntelFunc` enumeration (16 time-intelligence functions). -/
inductive TimeIntelFunc : Type
  | YTD | MTD | QTD | PY | PM | PQ | SAMEPERIODLASTYEAR | PARALLELPERIOD
  | DATEADD | DATESYTD | DATESMTD | DATESQTD
  | PREVIOUSDAY | PREVIOUSMONTH | PREVIOUSQUARTER | PREVIOUSYEAR
deriving DecidableEq

def TimeIntelFunc.value : TimeIntelFunc → String
  | .YTD => "YTD"
  | .MTD => "MTD"
  | .QTD => "QTD"
  | .PY => "PY"
  | .PM => "PM"
  | .PQ => "PQ"
  | .SAMEPERIODLASTYEAR => "SAMEPERIODLASTYEAR"
  | .PARALLELPERIOD => "PARALLELPERIOD"
  | .DATEADD => "DATEADD"
  | .DATESYTD => "DATESYTD"
  | .DATESMTD => "DATESMTD"
  | .DATESQTD => "DATESQTD"
  | .PREVIOUSDAY => "PREVIOUSDAY"
  | .PREVIOUSMONTH => "PREVIOUSMONTH"
  | .PREVIOUSQUARTER => "PREVIOUSQUARTER"
  | .PREVIOUSYEAR => "PREVIOUSYEAR"

def timeIntelList : List TimeIntelFunc :=
  [.YTD, .MTD, .QTD, .PY, .PM, .PQ, .SAMEPERIODLASTYEAR, .PARALLELPERIOD,
   .DATEADD, .DATESYTD, .DATESMTD, .DATESQTD,
   .PREVIOUSDAY, .PREVIOUSMONTH, .PREVIOUSQUARTER, .PREVIOUSYEAR]

/-- Python `TimeIntelFunc(s)` value lookup. -/
def timeIntelOfString (s : String) : Option TimeIntelFunc :=
  (timeIntelList.find? fun f => f.value = s)

/-- Python `ArithOp` enumeration. -/
inductive ArithOp : Type
  | ADD | SUB | MUL | DIV | MOD
deriving DecidableEq

def ArithOp.value : ArithOp → String
  | .ADD => "+"
  | .SUB => "-"
  | .MUL => "*"
  | .DIV => "/"
  | .MOD => "%"

def arithOpOfString (s : String) : Option ArithOp :=
  ([ArithOp.ADD, .SUB, .MUL, .DIV, .MOD].find? fun o => o.value = s)

/-- Python `FieldRef` dataclass.  The dataclass fields are untyped, so
`table`/`fieldName` are carried as values (`str(...)` is applied when
they are rendered). -/
structure FieldRef where
  table : DVal
  fieldName : DVal
  aliasName : Option DVal
deriving DecidableEq

/- `MetricExpr`: the metric-grammar tagged union.  The argument list of
`CoalesceExpr` is the mutually inductive `MList`, and the optional
sub-expressions (`filter`, `elseExpr`, `alternateResult`) use the
mutually inductive `MOpt` (isomorphic to `Option MetricExpr`), so that
recursion over trees is structural. -/
mutual

inductive MetricExpr : Type
  | fieldRef (fr : FieldRef) : MetricExpr
  | metricRef (metricCode : String) : MetricExpr
  | lit (value : DVal) (ty : Option DVal) : MetricExpr
  | agg (func : AggFunc) (arg : MetricExpr) (filter : MOpt) : MetricExpr
  | timeIntel (func : TimeIntelFunc) (metric : MetricExpr) (dateColumn : FieldRef)
      (offset : Option DVal) : MetricExpr
  | arith (op : ArithOp) (left right : MetricExpr) : MetricExpr
  | cond (condition thenExpr : MetricExpr) (elseExpr : MOpt) : MetricExpr
  | compare (op : String) (left right : MetricExpr) : MetricExpr
  | coalesce (args : MList) : MetricExpr
  | divide (numerator denominator : MetricExpr) (alternateResult : MOpt) : MetricExpr
  | window (func : String) (metric : MetricExpr)
      (partitionBy orderBy : Option (List FieldRef)) : MetricExpr
deriving DecidableEq

inductive MList : Type
  | nil : MList
  | cons (hd : MetricExpr) (tl : MList) : MList
deriving DecidableEq

inductive MOpt : Type
  | none : MOpt
  | some (e : MetricExpr) : MOpt
deriving DecidableEq

end

def MOpt.toOption : MOpt → Option MetricExpr
  | .none => Option.none
  | .some e => Option.some e

/-- Python truthiness of an optional sub-expression: `None` is falsy, a
dataclass instance is truthy. -/
def MOpt.isSome : MOpt → Bool
  | .none => false
  | .some _ => true

def MList.toList : MList → List MetricExpr
  | .nil => []
  | .cons h t => h :: t.toList

def MList.ofList : List MetricExpr → MList
  | [] => .nil
  | h :: t => .cons h (MList.ofList t)

/-- Python `parse_field_ref`: only dictionaries succeed; every other input
makes Python raise while splitting or calling `.get` (modelled as
`none`).  A non-string `ref` value also raises (`.split` on non-string). -/
def parse_field_ref (node : DVal) : Option FieldRef :=
  match node with
  | .vObj kvs =>
    match kvs.lookup "ref" with
    | some (.vStr r) =>
      match splitFirstChar (Char.ofNat 46) r with
      | [t, f] => some (FieldRef.mk (.vStr t) (.vStr f) (kvs.lookup "alias"))
      | [f] => some (FieldRef.mk (.vStr "") (.vStr f) (kvs.lookup "alias"))
      | _ => some (FieldRef.mk (.vStr "") (.vStr r) (kvs.lookup "alias"))
    | some _ => none
    | none =>
      some (FieldRef.mk (kvs.getD "table" (.vStr "")) (kvs.getD "field" (.vStr ""))
        (kvs.lookup "alias"))
  | _ => none

end OZMeta

namespace OZMeta

/-- Python whitespace (for `str.strip`). -/
def pyIsSpace (c : Char) : Bool :=
  c = ' ' || c = '\t' || c = '\n' || c = '\r' || c.toNat = 11 || c.toNat = 12

/-- Python `str.strip()`. -/
def pyStrip (s : String) : String :=
  String.mk (((s.data.dropWhile pyIsSpace).reverse.dropWhile pyIsSpace).reverse)

def isAsciiDigit (c : Char) : Bool := c.toNat ≥ 48 && c.toNat ≤ 57

def noDoubleUnderscore : List Char → Bool
  | [] => true
  | [_] => true
  | a :: b :: t => !(a = '_' && b = '_') && noDoubleUnderscore (b :: t)

/-- Digit run with optional single underscores between digits (Python
numeric literal syntax accepted by `int`/`float`). -/
def validUnderscoreDigits (l : List Char) : Bool :=
  match l with
  | [] => false
  | _ =>
    l.all (fun c => isAsciiDigit c || c = '_') &&
    (match l.head? with | some c => isAsciiDigit c | none => false) &&
    (match l.getLast? with | some c => isAsciiDigit c | none => false) &&
    noDoubleUnderscore l

def digitsValue (l : List Char) : Int :=
  l.foldl (fun acc c => acc * 10 + (Int.ofNat c.toNat - 48)) 0

/-- Python `int(s)`: optional whitespace and sign, digits with
underscores.  `none` models `ValueError`. -/
def pyIntParse (s : String) : Option Int :=
  let d := (pyStrip s).data
  match d with
  | '+' :: rest =>
    if validUnderscoreDigits rest then some (digitsValue (rest.filter isAsciiDigit)) else none
  | '-' :: rest =>
    if validUnderscoreDigits rest then some (-(digitsValue (rest.filter isAsciiDigit))) else none
  | rest =>
    if validUnderscoreDigits rest then some (digitsValue (rest.filter isAsciiDigit)) else none

/-- Python `float(s)` syntax check for the decimal-point form the
metric shorthand can produce (scientific notation, `inf` and `nan` are
not modelled and count as unparseable). -/
def pyFloatOk (s : String) : Bool :=
  let d := (pyStrip s).data
  let core := match d with
    | '+' :: rest => rest
    | '-' :: rest => rest
    | rest => rest
  match splitOnChar (Char.ofNat 46) core with
  | [g1, g2] =>
    (g1.isEmpty || validUnderscoreDigits g1) &&
    (g2.isEmpty || validUnderscoreDigits g2) &&
    !(g1.isEmpty && g2.isEmpty)
  | _ => false

/-- Indexing `v[i]` after a `dict.get` with a list default: lists index
normally, strings yield one-character strings, anything else raises
(including dicts, whose keys here are strings, so an integer key is a
`KeyError`).  `dflt` is the default list from the source text. -/
def pyIndex (v : Option DVal) (i : Nat) (dflt : List DVal) : Option DVal :=
  match v with
  | some (.vArr l) => l.toList.get? i
  | some (.vStr s) => (s.data.get? i).map (fun c => .vStr (String.singleton c))
  | some _ => none
  | none => dflt.get? i

/- `parse_metric_formula` and its helpers
(`src/compiler/metrics/parser.py`).  The Python functions recurse
through dictionary lookups, so recursion is made structural on a fuel
argument that every function decrements on every call; the wrapper
`parse_metric_formula` supplies fuel that is always sufficient, and
fuel exhaustion is unreachable from it.  `none` models a raised
exception (IndexError on a short `args` list, TypeError from iterating
a non-iterable, AttributeError from `.upper()`/`.split` on a
non-string). -/
mutual

/-- Python `parse_metric_formula`. -/
def parseMetricF : Nat → DVal → Option MetricExpr
  | 0, _ => none
  | fuel + 1, .vStr s => parseStrFormulaF fuel s
  | _ + 1, .vInt n => some (.lit (.vInt n) (some (.vStr "int")))
  | _ + 1, .vBool b => some (.lit (.vBool b) (some (.vStr "bool")))
  | _ + 1, .vFloatStr s => some (.lit (.vFloatStr s) (some (.vStr "float")))
  | _ + 1, .vNull => some (.lit .vNull none)
  | _ + 1, .vArr l => some (.lit (.vArr l) none)
  | fuel + 1, .vObj kvs =>
    if kvs.hasKey "lit" then
      some (.lit (kvs.getD "lit" .vNull) (kvs.lookup "type"))
    else if kvs.hasKey "timeIntel" then
      parseTimeIntelF fuel kvs
    else if kvs.hasKey "agg" then
      parseAggF fuel kvs
    else if (match kvs.lookup "metric" with | some (.vStr _) => true | _ => false) then
      match kvs.lookup "metric" with
      | some (.vStr m) => some (.metricRef m)
      | _ => none
    else if kvs.hasKey "ref" || (kvs.hasKey "table" && kvs.hasKey "field") then
      (parse_field_ref (.vObj kvs)).map .fieldRef
    else if (match kvs.lookup "op" with
             | some (.vStr o) => decide (o = "+" ∨ o = "-" ∨ o = "*" ∨ o = "/" ∨ o = "%")
             | _ => false) then
      parseArithF fuel kvs
    else if (match kvs.lookup "op" with
             | some (.vStr o) => decide (o = "=" ∨ o = "<>" ∨ o = ">" ∨ o = "<" ∨
                 o = ">=" ∨ o = "<=" ∨ o = "==" ∨ o = "!=")
             | _ => false) then
      parseCompareF fuel kvs
    else if kvs.hasKey "if" then
      parseCondF fuel kvs
    else if kvs.hasKey "coalesce" then
      match parseIterItemsF fuel (kvs.getD "coalesce" .vNull) with
      | some items => some (.coalesce items)
      | none => none
    else if kvs.hasKey "divide" then
      parseDivideF fuel kvs
    else if kvs.hasKey "window" then
      parseWindowF fuel kvs
    else
      some (.lit (.vObj kvs) none)

/-- Python `_parse_string_formula`. -/
def parseStrFormulaF : Nat → String → Option MetricExpr
  | 0, _ => none
  | fuel + 1, s0 =>
    let s := pyStrip s0
    if s.data.head? = some '[' && s.data.getLast? = some ']' then
      some (.metricRef (String.mk (s.data.drop 1).dropLast))
    else
      match parseAggPrefixF fuel aggFuncList s with
      | some e => some e
      | none =>
        if pyInStr "." s &&
            !(let t := s.data.filter fun c => !(c = '.' || c = '_')
              !t.isEmpty && t.all isAsciiDigit) then
          match splitFirstChar (Char.ofNat 46) s with
          | [t, f] => some (.fieldRef (FieldRef.mk (.vStr t) (.vStr f) none))
          | _ => none
        else if pyInStr "." s then
          if pyFloatOk s then some (.lit (.vFloatStr s) (some (.vStr "float")))
          else some (.lit (.vStr s) (some (.vStr "string")))
        else
          match pyIntParse s with
          | some n => some (.lit (.vInt n) (some (.vStr "int")))
          | none => some (.lit (.vStr s) (some (.vStr "string")))

/-- The `for func in AggFunc` prefix loop of `_parse_string_formula`.
`none` means no prefix matched (the loop falls through). -/
def parseAggPrefixF : Nat → List AggFunc → String → Option MetricExpr
  | 0, _, _ => none
  | _ + 1, [], _ => none
  | fuel + 1, f :: rest, s =>
    let pre := f.value ++ "("
    if pyStartsWith (pyUpper s) pre && s.data.getLast? = some ')' then
      match parseStrFormulaF fuel (String.mk ((s.data.drop pre.length).dropLast)) with
      | some inner => some (.agg f inner .none)
      | none => none
    else
      parseAggPrefixF fuel rest s

/-- Python `_parse_agg_expr`: unknown function names silently default to
`SUM`; a non-string `agg` value raises (`.upper()`). -/
def parseAggF : Nat → DKV → Option MetricExpr
  | 0, _ => none
  | fuel + 1, kvs =>
    match kvs.lookup "agg" with
    | some (.vStr f) =>
      let func := (aggFuncOfString (pyUpper f)).getD AggFunc.SUM
      match parseMetricF fuel (kvs.getD "arg" (kvs.getD "field" (.vObj .nil))) with
      | some arg =>
        match kvs.lookup "filter" with
        | some fv =>
          match parseMetricF fuel fv with
          | some fe => some (.agg func arg (.some fe))
          | none => none
        | none => some (.agg func arg .none)
      | none => none
    | _ => none

/-- Python `_parse_time_intel_expr`: unknown function names silently default
to `YTD`. -/
def parseTimeIntelF : Nat → DKV → Option MetricExpr
  | 0, _ => none
  | fuel + 1, kvs =>
    match kvs.lookup "timeIntel" with
    | some (.vStr f) =>
      let func := (timeIntelOfString (pyUpper f)).getD TimeIntelFunc.YTD
      match parseMetricF fuel (kvs.getD "metric" (kvs.getD "arg" (.vObj .nil))) with
      | some metric =>
        match parse_field_ref (kvs.getD "dateColumn" (kvs.getD "date" (.vObj .nil))) with
        | some dc => some (.timeIntel func metric dc (kvs.lookup "offset"))
        | none => none
      | none => none
    | _ => none

/-- Python `_parse_arith_expr`: note that the defaults
`node.get("args", [{}])[0]` / `[None, {}][1]` are evaluated eagerly, so
a short `args` list raises IndexError even when `left`/`right` are
present. -/
def parseArithF : Nat → DKV → Option MetricExpr
  | 0, _ => none
  | fuel + 1, kvs =>
    let op := match kvs.lookup "op" with
      | some (.vStr o) => (arithOpOfString o).getD ArithOp.ADD
      | _ => ArithOp.ADD
    match pyIndex (kvs.lookup "args") 0 [.vObj .nil] with
    | none => none
    | some d0 =>
      let leftNode := (kvs.lookup "left").getD d0
      match parseMetricF fuel leftNode with
      | none => none
      | some l =>
        match pyIndex (kvs.lookup "args") 1 [.vNull, .vObj .nil] with
        | none => none
        | some d1 =>
          let rightNode := (kvs.lookup "right").getD d1
          match parseMetricF fuel rightNode with
          | none => none
          | some r => some (.arith op l r)

/-- Python `_parse_compare_expr`: `==` and `!=` are rewritten to `=` / `<>`. -/
def parseCompareF : Nat → DKV → Option MetricExpr
  | 0, _ => none
  | fuel + 1, kvs =>
    let op0 := match kvs.lookup "op" with
      | some (.vStr o) => o
      | _ => ""
    let op1 := if op0 = "==" then "=" else op0
    let op := if op1 = "!=" then "<>" else op1
    match pyIndex (kvs.lookup "args") 0 [.vObj .nil] with
    | none => none
    | some d0 =>
      let leftNode := (kvs.lookup "left").getD d0
      match parseMetricF fuel leftNode with
      | none => none
      | some l =>
        match pyIndex (kvs.lookup "args") 1 [.vNull, .vObj .nil] with
        | none => none
        | some d1 =>
          let rightNode := (kvs.lookup "right").getD d1
          match parseMetricF fuel rightNode with
          | none => none
          | some r => some (.compare op l r)

/-- Python `_parse_cond_expr`. -/
def parseCondF : Nat → DKV → Option MetricExpr
  | 0, _ => none
  | fuel + 1, kvs =>
    match parseMetricF fuel (kvs.getD "if" .vNull) with
    | none => none
    | some c =>
      match parseMetricF fuel (kvs.getD "then" (.vObj .nil)) with
      | none => none
      | some t =>
        match kvs.lookup "else" with
        | some ev =>
          match parseMetricF fuel ev with
          | some e => some (.cond c t (.some e))
          | none => none
        | none => some (.cond c t .none)

/-- Python `_parse_divide_expr`. -/
def parseDivideF : Nat → DKV → Option MetricExpr
  | 0, _ => none
  | fuel + 1, kvs =>
    match kvs.getD "divide" .vNull with
    | .vArr l =>
      match l.toList with
      | a :: b :: rest =>
        match parseMetricF fuel a with
        | none => none
        | some num =>
          match parseMetricF fuel b with
          | none => none
          | some den =>
            match rest with
            | c :: _ =>
              match parseMetricF fuel c with
              | some alt => some (.divide num den (.some alt))
              | none => none
            | [] => some (.divide num den .none)
      | _ => parseDivideNamedF fuel kvs
    | _ => parseDivideNamedF fuel kvs

/-- The `numerator`/`denominator`/`alternate` form of
`_parse_divide_expr`. -/
def parseDivideNamedF : Nat → DKV → Option MetricExpr
  | 0, _ => none
  | fuel + 1, kvs =>
    match parseMetricF fuel (kvs.getD "numerator" (.vObj .nil)) with
    | none => none
    | some num =>
      match parseMetricF fuel (kvs.getD "denominator" (.vObj .nil)) with
      | none => none
      | some den =>
        match kvs.lookup "alternate" with
        | some av =>
          match parseMetricF fuel av with
          | some alt => some (.divide num den (.some alt))
          | none => none
        | none => some (.divide num den .none)

/-- Python `_parse_window_expr`: a non-string `window` value raises. -/
def parseWindowF : Nat → DKV → Option MetricExpr
  | 0, _ => none
  | fuel + 1, kvs =>
    match kvs.lookup "window" with
    | some (.vStr w) =>
      match parseMetricF fuel (kvs.getD "metric" (kvs.getD "arg" (.vObj .nil))) with
      | none => none
      | some metric =>
        match kvs.lookup "partitionBy" with
        | some pv =>
          match pyIterFieldRefsF fuel pv with
          | none => none
          | some pbs =>
            match kvs.lookup "orderBy" with
            | some ov =>
              match pyIterFieldRefsF fuel ov with
              | none => none
              | some obs => some (.window (pyUpper w) metric (some pbs) (some obs))
            | none => some (.window (pyUpper w) metric (some pbs) none)
        | none =>
          match kvs.lookup "orderBy" with
          | some ov =>
            match pyIterFieldRefsF fuel ov with
            | none => none
            | some obs => some (.window (pyUpper w) metric none (some obs))
          | none => some (.window (pyUpper w) metric none none)
    | _ => none

/-- Python `[parse_field_ref(f) for f in v]`: lists iterate elements, strings
iterate characters, dicts iterate keys; `parse_field_ref` raises on
every non-dict element, so only empty strings/dicts or lists of dicts
succeed. -/
def pyIterFieldRefsF : Nat → DVal → Option (List FieldRef)
  | 0, _ => none
  | fuel + 1, .vArr l => fieldRefListF fuel l
  | _ + 1, .vStr s => if s.data.isEmpty then some [] else none
  | _ + 1, .vObj kvs => (match kvs with | .nil => some [] | _ => none)
  | _ + 1, _ => none

def fieldRefListF : Nat → DList → Option (List FieldRef)
  | 0, _ => none
  | _ + 1, .nil => some []
  | fuel + 1, .cons h t =>
    match parse_field_ref h with
    | none => none
    | some fr =>
      match fieldRefListF fuel t with
      | some rest => some (fr :: rest)
      | none => none

/-- Iterate a value Python-style and parse each item as a metric
formula (the `coalesce` comprehension). -/
def parseIterItemsF : Nat → DVal → Option MList
  | 0, _ => none
  | fuel + 1, .vArr l => parseMListF fuel l
  | fuel + 1, .vStr s => parseCharItemsF fuel s.data
  | fuel + 1, .vObj kvs => parseKeyItemsF fuel kvs.keys
  | _ + 1, _ => none

def parseMListF : Nat → DList → Option MList
  | 0, _ => none
  | _ + 1, .nil => some .nil
  | fuel + 1, .cons h t =>
    match parseMetricF fuel h with
    | none => none
    | some e =>
      match parseMListF fuel t with
      | some rest => some (.cons e rest)
      | none => none

def parseCharItemsF : Nat → List Char → Option MList
  | 0, _ => none
  | _ + 1, [] => some .nil
  | fuel + 1, c :: rest =>
    match parseStrFormulaF fuel (String.singleton c) with
    | none => none
    | some e =>
      match parseCharItemsF fuel rest with
      | some r => some (.cons e r)
      | none => none

def parseKeyItemsF : Nat → List String → Option MList
  | 0, _ => none
  | _ + 1, [] => some .nil
  | fuel + 1, k :: rest =>
    match parseStrFormulaF fuel k with
    | none => none
    | some e =>
      match parseKeyItemsF fuel rest with
      | some r => some (.cons e r)
      | none => none

end

mutual

/-- Generous fuel bound for `parseMetricF` (an upper bound on the
recursion depth: every recursive call strictly decreases fuel, and each
syntactic layer consumes a bounded number of calls). -/
def DVal.mfuel : DVal → Nat
  | .vNull | .vBool _ | .vInt _ | .vFloatStr _ => 8
  | .vStr s => s.length + 8
  | .vArr l => l.mfuelL + 8
  | .vObj kvs => kvs.mfuelKV + 8

def DList.mfuelL : DList → Nat
  | .nil => 8
  | .cons h t => h.mfuel + t.mfuelL + 8

def DKV.mfuelKV : DKV → Nat
  | .nil => 8
  | .cons k v t => k.length + v.mfuel + t.mfuelKV + 8

end

/-- Python `parse_metric_formula` from `src/compiler/metrics/parser.py`. -/
def parse_metric_formula (node : DVal) : Option MetricExpr :=
  parseMetricF node.mfuel node

end OZMeta

namespace OZMeta

/-- The metrics cache `metricCode -> compiled text`
(`MetricsCompiler._metrics_cache`), the only mutable state; it is
threaded explicitly through every compile call. -/
abbrev MCache := List (String × String)

/- Metrics compiler (`src/compiler/metrics/compiler.py`). -/
structure MetricsCompiler where
  target : String
  quote_char : String
  quote_end : String
  string_quote : String
  null_safe_divide : Bool
deriving DecidableEq

/-- Python `MetricsCompiler.__init__` + `_setup_dialect`. -/
def MetricsCompiler.create (target : String) : MetricsCompiler :=
  let t := pyLower target
  if t = "tsql" ∨ t = "sqlserver" then ⟨t, "[", "]", "'", true⟩
  else if t = "dax" ∨ t = "powerbi" then ⟨t, "'", "'", "\"", true⟩
  else if t = "spark" ∨ t = "databricks" ∨ t = "sparksql" then ⟨t, "`", "`", "'", false⟩
  else if t = "postgres" ∨ t = "redshift" then ⟨t, "\"", "\"", "'", false⟩
  else if t = "python" then ⟨t, "", "", "\"", true⟩
  else ⟨t, "\"", "\"", "'", false⟩

def MetricsCompiler.isDax (c : MetricsCompiler) : Bool :=
  c.target = "dax" || c.target = "powerbi"

def MetricsCompiler.isSpark (c : MetricsCompiler) : Bool :=
  c.target = "spark" || c.target = "databricks" || c.target = "sparksql"

/-- Python `quote_identifier` (metrics). -/
def MetricsCompiler.quote_identifier (c : MetricsCompiler) (name : String) : String :=
  c.quote_char ++ name ++ c.quote_end

/-- Python `quote_field`: `table[field]` for DAX, quoted dotted pair otherwise
(a falsy table omits the table part). -/
def MetricsCompiler.quote_field (c : MetricsCompiler) (table fieldName : DVal) : String :=
  if c.isDax then pyStr table ++ "[" ++ pyStr fieldName ++ "]"
  else if table.truthy then
    c.quote_identifier (pyStr table) ++ "." ++ c.quote_identifier (pyStr fieldName)
  else c.quote_identifier (pyStr fieldName)

/-- Python `_compile_literal` (metrics): note the non-string fallback is
`str(value)` without quoting, unlike the guard compiler. -/
def MetricsCompiler.compile_literal (c : MetricsCompiler) (value : DVal) : String :=
  match value with
  | .vNull => if c.target = "python" then "None" else "NULL"
  | .vBool b =>
    if c.target = "python" then (if b then "True" else "False")
    else if c.isDax then (if b then "TRUE" else "FALSE")
    else (if b then "1" else "0")
  | .vInt n => toString n
  | .vFloatStr s => s
  | .vStr s =>
    c.string_quote ++ pyReplace s c.string_quote (c.string_quote ++ c.string_quote) ++
      c.string_quote
  | v => pyStr v

/-- Python `_compile_field_ref`. -/
def MetricsCompiler.compile_field_ref (c : MetricsCompiler) (fr : FieldRef) : String :=
  c.quote_field fr.table fr.fieldName

/-- Python `_compile_metric_ref`: cached metrics render parenthesised,
unresolved codes render as a DAX measure reference or a SQL comment
placeholder. -/
def MetricsCompiler.compile_metric_ref (c : MetricsCompiler) (κ : MCache)
    (code : String) : String :=
  match κ.lookup code with
  | some t => "(" ++ t ++ ")"
  | none => if c.isDax then "[" ++ code ++ "]" else "/* " ++ code ++ " */"

/-- Python `_compile_agg_sql` function-name table. -/
def aggNameSql : AggFunc → String
  | .SUM => "SUM"
  | .COUNT => "COUNT"
  | .AVG => "AVG"
  | .MIN => "MIN"
  | .MAX => "MAX"
  | .DISTINCTCOUNT => "COUNT(DISTINCT"
  | .COUNTROWS => "COUNT(*"
  | .FIRST => "MIN"
  | .LAST => "MAX"
  | .STDEV => "STDEV"
  | .VAR => "VAR"
  | .MEDIAN => "PERCENTILE_CONT(0.5) WITHIN GROUP (ORDER BY"

/-- Python `_compile_agg_dax` function-name table. -/
def aggNameDax : AggFunc → String
  | .SUM => "SUM"
  | .COUNT => "COUNT"
  | .AVG => "AVERAGE"
  | .MIN => "MIN"
  | .MAX => "MAX"
  | .DISTINCTCOUNT => "DISTINCTCOUNT"
  | .COUNTROWS => "COUNTROWS"
  | .FIRST => "FIRSTNONBLANK"
  | .LAST => "LASTNONBLANK"
  | .STDEV => "STDEV.P"
  | .VAR => "VAR.P"
  | .MEDIAN => "MEDIAN"

/-- Python `_compile_agg_spark` function-name table. -/
def aggNameSpark : AggFunc → String
  | .SUM => "SUM"
  | .COUNT => "COUNT"
  | .AVG => "AVG"
  | .MIN => "MIN"
  | .MAX => "MAX"
  | .DISTINCTCOUNT => "COUNT(DISTINCT"
  | .COUNTROWS => "COUNT(*"
  | .FIRST => "FIRST"
  | .LAST => "LAST"
  | .STDEV => "STDDEV"
  | .VAR => "VARIANCE"
  | .MEDIAN => "PERCENTILE"

/-- Python `_compile_agg_python` function-name table. -/
def aggNamePython : AggFunc → String
  | .SUM => "sum"
  | .COUNT => "count"
  | .AVG => "mean"
  | .MIN => "min"
  | .MAX => "max"
  | .DISTINCTCOUNT => "nunique"
  | .COUNTROWS => "len"
  | .FIRST => "first"
  | .LAST => "last"
  | .STDEV => "std"
  | .VAR => "var"
  | .MEDIAN => "median"

/-- Python `{ti.offset or -1}` (Python truthiness: a zero offset also falls
back to `-1`). -/
def offsetOrMinusOne (offset : Option DVal) : String :=
  match offset with
  | some v => if v.truthy then pyStr v else "-1"
  | none => "-1"

/-- Python `_compile_time_intel_dax` (the table misses `DATESMTD`/`DATESQTD`,
which fall back to plain `CALCULATE(metric, date)`). -/
def MetricsCompiler.time_intel_dax (func : TimeIntelFunc) (m d off : String) : String :=
  match func with
  | .YTD => "TOTALYTD(" ++ m ++ ", " ++ d ++ ")"
  | .MTD => "TOTALMTD(" ++ m ++ ", " ++ d ++ ")"
  | .QTD => "TOTALQTD(" ++ m ++ ", " ++ d ++ ")"
  | .PY => "CALCULATE(" ++ m ++ ", SAMEPERIODLASTYEAR(" ++ d ++ "))"
  | .PM => "CALCULATE(" ++ m ++ ", PREVIOUSMONTH(" ++ d ++ "))"
  | .PQ => "CALCULATE(" ++ m ++ ", PREVIOUSQUARTER(" ++ d ++ "))"
  | .SAMEPERIODLASTYEAR => "CALCULATE(" ++ m ++ ", SAMEPERIODLASTYEAR(" ++ d ++ "))"
  | .PARALLELPERIOD => "CALCULATE(" ++ m ++ ", PARALLELPERIOD(" ++ d ++ ", " ++ off ++ ", MONTH))"
  | .DATEADD => "CALCULATE(" ++ m ++ ", DATEADD(" ++ d ++ ", " ++ off ++ ", DAY))"
  | .DATESYTD => "CALCULATE(" ++ m ++ ", DATESYTD(" ++ d ++ "))"
  | .PREVIOUSDAY => "CALCULATE(" ++ m ++ ", PREVIOUSDAY(" ++ d ++ "))"
  | .PREVIOUSMONTH => "CALCULATE(" ++ m ++ ", PREVIOUSMONTH(" ++ d ++ "))"
  | .PREVIOUSQUARTER => "CALCULATE(" ++ m ++ ", PREVIOUSQUARTER(" ++ d ++ "))"
  | .PREVIOUSYEAR => "CALCULATE(" ++ m ++ ", PREVIOUSYEAR(" ++ d ++ "))"
  | _ => "CALCULATE(" ++ m ++ ", " ++ d ++ ")"

/-- Python `_compile_time_intel_sql` (the T-SQL conditional-sum templates; the
multi-line f-strings carry their literal newlines and indentation). -/
def MetricsCompiler.time_intel_sql (func : TimeIntelFunc) (m d : String) : String :=
  match func with
  | .YTD =>
    "SUM(CASE WHEN " ++ d ++ " >= DATEFROMPARTS(YEAR(" ++ d ++ "), 1, 1)\n                AND " ++
      d ++ " <= GETDATE() THEN " ++ m ++ " ELSE 0 END)"
  | .MTD =>
    "SUM(CASE WHEN " ++ d ++ " >= DATEFROMPARTS(YEAR(" ++ d ++ "), MONTH(" ++ d ++
      "), 1)\n                AND " ++ d ++ " <= GETDATE() THEN " ++ m ++ " ELSE 0 END)"
  | .QTD =>
    "SUM(CASE WHEN " ++ d ++ " >= DATEADD(QUARTER, DATEDIFF(QUARTER, 0, " ++ d ++
      "), 0)\n                AND " ++ d ++ " <= GETDATE() THEN " ++ m ++ " ELSE 0 END)"
  | .PY =>
    "SUM(CASE WHEN YEAR(" ++ d ++ ") = YEAR(GETDATE()) - 1 THEN " ++ m ++ " ELSE 0 END)"
  | .PM =>
    "SUM(CASE WHEN YEAR(" ++ d ++ ") = YEAR(DATEADD(MONTH, -1, GETDATE()))\n                AND MONTH(" ++
      d ++ ") = MONTH(DATEADD(MONTH, -1, GETDATE())) THEN " ++ m ++ " ELSE 0 END)"
  | _ => m

/-- Python `_compile_time_intel_spark`. -/
def MetricsCompiler.time_intel_spark (func : TimeIntelFunc) (m d : String) : String :=
  match func with
  | .YTD =>
    "SUM(CASE WHEN " ++ d ++ " >= DATE_TRUNC('YEAR', CURRENT_DATE())\n                AND " ++
      d ++ " <= CURRENT_DATE() THEN " ++ m ++ " ELSE 0 END)"
  | .MTD =>
    "SUM(CASE WHEN " ++ d ++ " >= DATE_TRUNC('MONTH', CURRENT_DATE())\n                AND " ++
      d ++ " <= CURRENT_DATE() THEN " ++ m ++ " ELSE 0 END)"
  | .PY =>
    "SUM(CASE WHEN YEAR(" ++ d ++ ") = YEAR(CURRENT_DATE()) - 1 THEN " ++ m ++ " ELSE 0 END)"
  | _ => m

/-- Which aggregation functions short-circuit before the filter logic
for the active dialect (the early `return`s in `_compile_agg_sql`,
`_compile_agg_dax`, `_compile_agg_spark`, `_compile_agg_python`): an
attached filter is ignored for these. -/
def MetricsCompiler.skipsFilter (c : MetricsCompiler) (f : AggFunc) : Bool :=
  if c.isDax then f = .COUNTROWS
  else if c.isSpark then f = .DISTINCTCOUNT || f = .COUNTROWS || f = .MEDIAN
  else if c.target = "python" then f = .COUNTROWS
  else f = .DISTINCTCOUNT || f = .COUNTROWS || f = .MEDIAN

/-- The early-return aggregation renderings (only reached when
`skipsFilter` holds for the dialect). -/
def MetricsCompiler.aggSpecial (c : MetricsCompiler) (f : AggFunc) (arg : MetricExpr)
    (inner : String) : String :=
  if c.isDax then
    match arg with
    | .fieldRef fr => "COUNTROWS(" ++ pyStr fr.table ++ ")"
    | _ => "COUNTROWS(" ++ inner ++ ")"
  else if c.isSpark then
    if f = .DISTINCTCOUNT then "COUNT(DISTINCT " ++ inner ++ ")"
    else if f = .COUNTROWS then "COUNT(*)"
    else "PERCENTILE(" ++ inner ++ ", 0.5)"
  else if c.target = "python" then "len(df)"
  else
    if f = .DISTINCTCOUNT then "COUNT(DISTINCT " ++ inner ++ ")"
    else if f = .COUNTROWS then "COUNT(*)"
    else "PERCENTILE_CONT(0.5) WITHIN GROUP (ORDER BY " ++ inner ++ ")"

mutual

/-- Python `MetricsCompiler.compile`: dispatch on the node kind, threading the
metrics cache (which no branch ever writes).  The `_compile_agg`,
`_compile_time_intel`, `_compile_arith`, `_compile_cond`,
`_compile_compare`, `_compile_coalesce`, `_compile_divide` and
`_compile_window` method bodies are inlined into the corresponding
branches (rearranged so each branch yields one top-level pair; the set
of compiled sub-expressions, their order, and every rendered string are
exactly those of the source).  Sub-expressions are compiled in source
statement order.  The unreachable `isinstance(ti.metric, dict)`
re-parse inside `_compile_time_intel` cannot fire on a typed tree. -/
def MetricsCompiler.compile (c : MetricsCompiler) (κ : MCache) :
    MetricExpr → String × MCache
  | .lit v _ => (c.compile_literal v, κ)
  | .fieldRef fr => (c.compile_field_ref fr, κ)
  | .metricRef code => (c.compile_metric_ref κ code, κ)
  | .agg f arg filt =>
    let r1 := c.compile κ arg
    match filt with
    | .some fe =>
      let r2 := if c.skipsFilter f then r1 else c.compile r1.2 fe
      ((if c.skipsFilter f then c.aggSpecial f arg r1.1
        else if c.isDax then
          "CALCULATE(" ++ aggNameDax f ++ "(" ++ r1.1 ++ "), " ++ r2.1 ++ ")"
        else if c.target = "python" then
          "df.loc[" ++ r2.1 ++ ", " ++ r1.1 ++ "]." ++ aggNamePython f ++ "()"
        else "SUM(CASE WHEN " ++ r2.1 ++ " THEN " ++ r1.1 ++ " ELSE 0 END)"), r2.2)
    | .none =>
      ((if c.skipsFilter f then c.aggSpecial f arg r1.1
        else if c.isDax then aggNameDax f ++ "(" ++ r1.1 ++ ")"
        else if c.isSpark then aggNameSpark f ++ "(" ++ r1.1 ++ ")"
        else if c.target = "python" then "df[" ++ r1.1 ++ "]." ++ aggNamePython f ++ "()"
        else aggNameSql f ++ "(" ++ r1.1 ++ ")"), r1.2)
  | .timeIntel f m dc off =>
    let r1 := c.compile κ m
    let ds := c.compile_field_ref dc
    ((if c.isDax then MetricsCompiler.time_intel_dax f r1.1 ds (offsetOrMinusOne off)
      else if c.isSpark then MetricsCompiler.time_intel_spark f r1.1 ds
      else MetricsCompiler.time_intel_sql f r1.1 ds), r1.2)
  | .arith o l r =>
    let r1 := c.compile κ l
    let r2 := c.compile r1.2 r
    ("(" ++ r1.1 ++ " " ++ o.value ++ " " ++ r2.1 ++ ")", r2.2)
  | .cond cnd thn els =>
    let r1 := c.compile κ cnd
    let r2 := c.compile r1.2 thn
    match els with
    | .some e =>
      let r3 := c.compile r2.2 e
      ((if c.isDax then "IF(" ++ r1.1 ++ ", " ++ r2.1 ++ ", " ++ r3.1 ++ ")"
        else if c.target = "python" then
          "(" ++ r2.1 ++ " if " ++ r1.1 ++ " else " ++ r3.1 ++ ")"
        else "CASE WHEN " ++ r1.1 ++ " THEN " ++ r2.1 ++ " ELSE " ++ r3.1 ++ " END"), r3.2)
    | .none =>
      ((if c.isDax then "IF(" ++ r1.1 ++ ", " ++ r2.1 ++ ")"
        else if c.target = "python" then "(" ++ r2.1 ++ " if " ++ r1.1 ++ " else None)"
        else "CASE WHEN " ++ r1.1 ++ " THEN " ++ r2.1 ++ " END"), r2.2)
  | .compare o l r =>
    let r1 := c.compile κ l
    let r2 := c.compile r1.2 r
    ("(" ++ r1.1 ++ " " ++ o ++ " " ++ r2.1 ++ ")", r2.2)
  | .coalesce args =>
    let r1 := c.compileMList κ args
    let joined := String.intercalate ", " r1.1
    ((if c.target = "python" then
        "next((x for x in [" ++ joined ++ "] if x is not None), None)"
      else "COALESCE(" ++ joined ++ ")"), r1.2)
  | .divide n d a =>
    let r1 := c.compile κ n
    let r2 := c.compile r1.2 d
    let r3 := match a with
      | .some x => c.compile r2.2 x
      | .none => ("0", r2.2)
    ((if c.isDax then "DIVIDE(" ++ r1.1 ++ ", " ++ r2.1 ++ ", " ++ r3.1 ++ ")"
      else if c.target = "python" then
        "(" ++ r1.1 ++ " / " ++ r2.1 ++ " if " ++ r2.1 ++ " != 0 else " ++ r3.1 ++ ")"
      else if c.null_safe_divide then
        "CASE WHEN " ++ r2.1 ++ " = 0 THEN " ++ r3.1 ++ " ELSE " ++ r1.1 ++ " / " ++
          r2.1 ++ " END"
      else "(" ++ r1.1 ++ " / NULLIF(" ++ r2.1 ++ ", 0))"), r3.2)
  | .window f m pb ob =>
    let r1 := c.compile κ m
    ((if c.isDax then r1.1
      else
        let overParts : List String :=
          (match pb with
           | some (fr :: frs) =>
             ["PARTITION BY " ++
               String.intercalate ", " (((fr :: frs).map c.compile_field_ref))]
           | _ => []) ++
          (match ob with
           | some (fr :: frs) =>
             ["ORDER BY " ++
               String.intercalate ", " (((fr :: frs).map c.compile_field_ref))]
           | _ => [])
        let overTxt :=
          if overParts.isEmpty then "OVER ()"
          else "OVER (" ++ String.intercalate " " overParts ++ ")"
        f ++ "(" ++ r1.1 ++ ") " ++ overTxt), r1.2)

/-- The generator expression joining coalesce arguments, compiled in
order. -/
def MetricsCompiler.compileMList (c : MetricsCompiler) (κ : MCache) :
    MList → List String × MCache
  | .nil => ([], κ)
  | .cons h t =>
    let r1 := c.compile κ h
    let r2 := c.compileMList r1.2 t
    (r1.1 :: r2.1, r2.2)

end

end OZMeta

namespace OZMeta

mutual

/-- The `_walk` closure of `_extract_dependencies`: collect every
`MetricRef` code in traversal order (the Python code adds them to a
set; the list here keeps duplicates, which the caller removes). -/
def depsWalk : MetricExpr → List String
  | .metricRef code => [code]
  | .fieldRef _ => []
  | .lit _ _ => []
  | .agg _ arg filt => depsWalk arg ++ depsWalkOpt filt
  | .timeIntel _ m _ _ => depsWalk m
  | .arith _ l r => depsWalk l ++ depsWalk r
  | .cond c t e => depsWalk c ++ depsWalk t ++ depsWalkOpt e
  | .compare _ l r => depsWalk l ++ depsWalk r
  | .coalesce args => depsWalkList args
  | .divide n d a => depsWalk n ++ depsWalk d ++ depsWalkOpt a
  | .window _ m _ _ => depsWalk m

def depsWalkOpt : MOpt → List String
  | .none => []
  | .some e => depsWalk e

def depsWalkList : MList → List String
  | .nil => []
  | .cons h t => depsWalk h ++ depsWalkList t

end

/-- Python `_extract_dependencies`: `sorted(set(codes))` — the unique sorted
list of collected codes. -/
def extract_dependencies (e : MetricExpr) : List String :=
  ((depsWalk e).dedup).insertionSort (· ≤ ·)

/-- Python `CompiledMetric` record. -/
structure CompiledMetric where
  metricCode : DVal
  target : String
  expression : String
  dependencies : List String
  notes : Option DVal
deriving DecidableEq

/-- Python `compile_metric`: parse, compile, extract dependencies.  The
result pairs the `CompiledMetric` (or `none` for a raised exception)
with the caller-supplied `metrics_lookup` map as it stands after the
call: the source copies it into the compiler cache
(`compiler._metrics_cache = metrics_lookup.copy()`; falsy lookups leave
the empty cache, which has the same content) and never writes to
either, so it is returned unchanged. -/
def compile_metric (metric_def : DVal) (target : String) (metrics_lookup : MCache) :
    Option CompiledMetric × MCache :=
  match metric_def with
  | .vObj kvs =>
    let code := pyOr (kvs.lookup "code")
      (pyOr (kvs.lookup "metricCode") (kvs.getD "MT_Code" (.vStr "Unknown")))
    let formula := pyOr (kvs.lookup "formula")
      (pyOr (kvs.lookup "expressionLogical") (kvs.getD "MT_FormulaJSON" (.vObj .nil)))
    let c := MetricsCompiler.create target
    match parse_metric_formula formula with
    | none => (none, metrics_lookup)
    | some e =>
      let (text, _) := c.compile metrics_lookup e
      let deps := extract_dependencies e
      (some { metricCode := code, target := target, expression := text,
              dependencies := deps, notes := kvs.lookup "notes" }, metrics_lookup)
  | _ => (none, metrics_lookup)

/- KPI threshold compiler (`compile_kpi`, `_kpi_status_sql`,
`_kpi_status_dax`). -/

/-- Python `direction.lower() in ("higherbetter", "higherisbetter", "maximize")`. -/
def higherIsBetter (direction : String) : Bool :=
  let d := pyLower direction
  d = "higherbetter" || d = "higherisbetter" || d = "maximize"

/-- Python `{green or yellow}` rendered (Python truthiness: a falsy green
falls back to yellow). -/
def greenOrYellow (green yellow : Option DVal) : String :=
  pyStrOpt (pyOr2 green yellow)

/-- Python `_kpi_status_sql`: the SQL CASE classification (multi-line
f-strings carry their literal newlines and indentation). -/
def kpi_status_sql (metric : String) (direction : String)
    (red yellow green : Option DVal) : String :=
  if higherIsBetter direction then
    if red.isSome && yellow.isSome then
      "CASE\n    WHEN " ++ metric ++ " >= " ++ greenOrYellow green yellow ++
        " THEN 'Green'\n    WHEN " ++ metric ++ " >= " ++ pyStrOpt yellow ++
        " THEN 'Yellow'\n    WHEN " ++ metric ++ " < " ++ pyStrOpt red ++
        " THEN 'Red'\n    ELSE 'Yellow'\nEND"
    else if red.isSome then
      "CASE WHEN " ++ metric ++ " >= " ++ pyStrOpt red ++ " THEN 'Green' ELSE 'Red' END"
    else "'Unknown'"
  else
    if red.isSome && yellow.isSome then
      "CASE\n    WHEN " ++ metric ++ " <= " ++ greenOrYellow green yellow ++
        " THEN 'Green'\n    WHEN " ++ metric ++ " <= " ++ pyStrOpt yellow ++
        " THEN 'Yellow'\n    WHEN " ++ metric ++ " > " ++ pyStrOpt red ++
        " THEN 'Red'\n    ELSE 'Yellow'\nEND"
    else if red.isSome then
      "CASE WHEN " ++ metric ++ " <= " ++ pyStrOpt red ++ " THEN 'Green' ELSE 'Red' END"
    else "'Unknown'"

/-- Python `_kpi_status_dax`: the `SWITCH(TRUE(), ...)` classification. -/
def kpi_status_dax (metric : String) (direction : String)
    (red yellow green : Option DVal) : String :=
  if higherIsBetter direction then
    if red.isSome && yellow.isSome then
      "\nSWITCH(\n    TRUE(),\n    " ++ metric ++ " >= " ++ greenOrYellow green yellow ++
        ", \"Green\",\n    " ++ metric ++ " >= " ++ pyStrOpt yellow ++
        ", \"Yellow\",\n    " ++ metric ++ " < " ++ pyStrOpt red ++
        ", \"Red\",\n    \"Yellow\"\n)"
    else if red.isSome then
      "IF(" ++ metric ++ " >= " ++ pyStrOpt red ++ ", \"Green\", \"Red\")"
    else "\"Unknown\""
  else
    if red.isSome && yellow.isSome then
      "\nSWITCH(\n    TRUE(),\n    " ++ metric ++ " <= " ++ greenOrYellow green yellow ++
        ", \"Green\",\n    " ++ metric ++ " <= " ++ pyStrOpt yellow ++
        ", \"Yellow\",\n    " ++ metric ++ " > " ++ pyStrOpt red ++
        ", \"Red\",\n    \"Yellow\"\n)"
    else if red.isSome then
      "IF(" ++ metric ++ " <= " ++ pyStrOpt red ++ ", \"Green\", \"Red\")"
    else "\"Unknown\""

/-- Result dictionary of `compile_kpi`. -/
structure KpiResult where
  kpiCode : DVal
  metricCode : DVal
  statusExpression : String
  varianceExpression : Option String
  variancePctExpression : Option String
deriving DecidableEq

/-- A JSON `null` stored under a key is `None` in Python, identical to
an absent key for `dict.get`: normalise it away where the source tests
`is not None`. -/
def pyNoneNorm : Option DVal → Option DVal
  | some .vNull => none
  | x => x

/-- Python `compile_kpi`: `none` models a raised exception (non-dict
definition, non-string direction, an unhashable metric code used as a
dict key, or thresholds without a `.get` method).  `jl` is `json.loads`
for string thresholds. -/
def compile_kpi (jl : String → Option DVal) (kpi_def : DVal)
    (metrics : List (String × CompiledMetric)) (target : String) : Option KpiResult :=
  match kpi_def with
  | .vObj kvs =>
    let code := pyOr (kvs.lookup "code")
      (pyOr (kvs.lookup "kpiCode") (kvs.getD "KPI_Code" (.vStr "Unknown")))
    let metricCode := pyOr (kvs.lookup "metricCode") (kvs.getD "KPI_MetricCode" (.vStr ""))
    let direction := pyOr (kvs.lookup "direction")
      (kvs.getD "KPI_Direction" (.vStr "HigherIsBetter"))
    let thresholds0 := pyOr (kvs.lookup "thresholds") (kvs.getD "KPI_ThresholdsJSON" (.vObj .nil))
    let targetValue := pyNoneNorm
      (pyOr2 (kvs.lookup "targetValue") (kvs.lookup "KPI_TargetValue"))
    let metricExprO : Option String :=
      match metricCode with
      | .vStr mc =>
        match metrics.lookup mc with
        | some cm => some ("(" ++ cm.expression ++ ")")
        | none => some ("[" ++ pyStr metricCode ++ "]")
      | .vArr _ => none
      | .vObj _ => none
      | _ => some ("[" ++ pyStr metricCode ++ "]")
    match metricExprO with
    | none => none
    | some metricExpr =>
      let thresholds : DVal :=
        match thresholds0 with
        | .vStr s => (jl s).getD (.vObj .nil)
        | t => t
      match direction with
      | .vStr dir =>
        match thresholds with
        | .vObj tks =>
          let red := pyNoneNorm (pyOr2 (tks.lookup "red") (tks.lookup "critical"))
          let yellow := pyNoneNorm (pyOr2 (tks.lookup "yellow") (tks.lookup "warning"))
          let green := pyNoneNorm (pyOr2 (tks.lookup "green") (tks.lookup "good"))
          let status :=
            if target = "dax" ∨ target = "powerbi" then
              kpi_status_dax metricExpr dir red yellow green
            else
              kpi_status_sql metricExpr dir red yellow green
          let variance :=
            match targetValue with
            | some tv => some ("(" ++ metricExpr ++ " - " ++ pyStr tv ++ ")")
            | none => none
          let variancePct :=
            match targetValue with
            | some tv =>
              some ("((" ++ metricExpr ++ " - " ++ pyStr tv ++ ") / NULLIF(" ++
                pyStr tv ++ ", 0) * 100)")
            | none => none
          some { kpiCode := code, metricCode := metricCode, statusExpression := status,
                 varianceExpression := variance, variancePctExpression := variancePct }
        | _ => none
      | _ => none
  | _ => none

end OZMeta

namespace OZMeta

/-- Concrete stand-in for `json.loads` used by closed theorems whose
inputs never reach it. -/
def jlNone : String → Option DVal := fun _ => none

mutual

/-- Modelled from the spec (§4.5): a `MetricRef` with this code occurs
somewhere in the tree, looking into every branch kind that can contain
one (aggregation argument and filter, time-intelligence inner metric,
arithmetic operands, conditional branches, comparison operands,
coalesce arguments, divide operands/alternate, window metric). -/
def occursCode (x : String) : MetricExpr → Bool
  | .metricRef c => x = c
  | .fieldRef _ => false
  | .lit _ _ => false
  | .agg _ arg filt => occursCode x arg || occursCodeOpt x filt
  | .timeIntel _ m _ _ => occursCode x m
  | .arith _ l r => occursCode x l || occursCode x r
  | .cond c t e => occursCode x c || occursCode x t || occursCodeOpt x e
  | .compare _ l r => occursCode x l || occursCode x r
  | .coalesce args => occursCodeList x args
  | .divide n d a => occursCode x n || occursCode x d || occursCodeOpt x a
  | .window _ m _ _ => occursCode x m

def occursCodeOpt (x : String) : MOpt → Bool
  | .none => false
  | .some e => occursCode x e

def occursCodeList (x : String) : MList → Bool
  | .nil => false
  | .cons h t => occursCode x h || occursCodeList x t

end

mutual

/-- The codes collected by `_walk` are exactly the codes occurring in
the tree. -/
theorem mem_depsWalk : ∀ (e : MetricExpr) (x : String),
    x ∈ depsWalk e ↔ occursCode x e = true
  | .metricRef c, x => by simp [depsWalk, occursCode, eq_comm]
  | .fieldRef _, x => by simp [depsWalk, occursCode]
  | .lit _ _, x => by simp [depsWalk, occursCode]
  | .agg _ arg filt, x => by
    simp [depsWalk, occursCode, mem_depsWalk arg x, mem_depsWalkOpt filt x]
  | .timeIntel _ m _ _, x => by simp [depsWalk, occursCode, mem_depsWalk m x]
  | .arith _ l r, x => by
    simp [depsWalk, occursCode, mem_depsWalk l x, mem_depsWalk r x]
  | .cond c t e, x => by
    simp [depsWalk, occursCode, mem_depsWalk c x, mem_depsWalk t x, mem_depsWalkOpt e x,
      or_assoc]
  | .compare _ l r, x => by
    simp [depsWalk, occursCode, mem_depsWalk l x, mem_depsWalk r x]
  | .coalesce args, x => by simp [depsWalk, occursCode, mem_depsWalkList args x]
  | .divide n d a, x => by
    simp [depsWalk, occursCode, mem_depsWalk n x, mem_depsWalk d x, mem_depsWalkOpt a x,
      or_assoc]
  | .window _ m _ _, x => by simp [depsWalk, occursCode, mem_depsWalk m x]

theorem mem_depsWalkOpt : ∀ (o : MOpt) (x : String),
    x ∈ depsWalkOpt o ↔ occursCodeOpt x o = true
  | .none, x => by simp [depsWalkOpt, occursCodeOpt]
  | .some e, x => by simp [depsWalkOpt, occursCodeOpt, mem_depsWalk e x]

theorem mem_depsWalkList : ∀ (l : MList) (x : String),
    x ∈ depsWalkList l ↔ occursCodeList x l = true
  | .nil, x => by simp [depsWalkList, occursCodeList]
  | .cons h t, x => by
    simp [depsWalkList, occursCodeList, mem_depsWalk h x, mem_depsWalkList t x]

end

mutual

/-- No branch of `MetricsCompiler.compile` writes the metrics cache:
the state threaded out equals the state threaded in. -/
theorem compile_cache_invariant (c : MetricsCompiler) :
    ∀ (κ : MCache) (e : MetricExpr), (c.compile κ e).2 = κ
  | κ, .lit v ty => rfl
  | κ, .fieldRef fr => rfl
  | κ, .metricRef code => rfl
  | κ, .agg f arg (.some fe) => by
    show (if c.skipsFilter f = true then c.compile κ arg
          else c.compile (c.compile κ arg).2 fe).2 = κ
    split
    · exact compile_cache_invariant c κ arg
    · rw [compile_cache_invariant c κ arg]; exact compile_cache_invariant c κ fe
  | κ, .agg f arg .none => compile_cache_invariant c κ arg
  | κ, .timeIntel f m dc off => compile_cache_invariant c κ m
  | κ, .arith o l r => by
    show (c.compile (c.compile κ l).2 r).2 = κ
    rw [compile_cache_invariant c κ l]; exact compile_cache_invariant c κ r
  | κ, .cond cnd thn (.some e) => by
    show (c.compile (c.compile (c.compile κ cnd).2 thn).2 e).2 = κ
    rw [compile_cache_invariant c κ cnd, compile_cache_invariant c κ thn]
    exact compile_cache_invariant c κ e
  | κ, .cond cnd thn .none => by
    show (c.compile (c.compile κ cnd).2 thn).2 = κ
    rw [compile_cache_invariant c κ cnd]; exact compile_cache_invariant c κ thn
  | κ, .compare o l r => by
    show (c.compile (c.compile κ l).2 r).2 = κ
    rw [compile_cache_invariant c κ l]; exact compile_cache_invariant c κ r
  | κ, .coalesce args => compileMList_cache_invariant c κ args
  | κ, .divide n d (.some x) => by
    show (c.compile (c.compile (c.compile κ n).2 d).2 x).2 = κ
    rw [compile_cache_invariant c κ n, compile_cache_invariant c κ d]
    exact compile_cache_invariant c κ x
  | κ, .divide n d .none => by
    show (c.compile (c.compile κ n).2 d).2 = κ
    rw [compile_cache_invariant c κ n]; exact compile_cache_invariant c κ d
  | κ, .window f m pb ob => compile_cache_invariant c κ m

theorem compileMList_cache_invariant (c : MetricsCompiler) :
    ∀ (κ : MCache) (l : MList), (c.compileMList κ l).2 = κ
  | κ, .nil => rfl
  | κ, .cons h t => by
    show (c.compileMList (c.compile κ h).2 t).2 = κ
    rw [compile_cache_invariant c κ h]; exact compileMList_cache_invariant c κ t

end

end OZMeta

namespace OZMeta

/-- One-step unfolding of the `DivideExpr` branch of `compile`
(definitional). -/
theorem compile_divide_unfold (c : MetricsCompiler) (κ : MCache) (n d : MetricExpr)
    (a : MOpt) :
    c.compile κ (.divide n d a) =
      (let r1 := c.compile κ n
       let r2 := c.compile r1.2 d
       let r3 := match a with
         | .some x => c.compile r2.2 x
         | .none => ("0", r2.2)
       ((if c.isDax then "DIVIDE(" ++ r1.1 ++ ", " ++ r2.1 ++ ", " ++ r3.1 ++ ")"
         else if c.target = "python" then
           "(" ++ r1.1 ++ " / " ++ r2.1 ++ " if " ++ r2.1 ++ " != 0 else " ++ r3.1 ++ ")"
         else if c.null_safe_divide then
           "CASE WHEN " ++ r2.1 ++ " = 0 THEN " ++ r3.1 ++ " ELSE " ++ r1.1 ++ " / " ++
             r2.1 ++ " END"
         else "(" ++ r1.1 ++ " / NULLIF(" ++ r2.1 ++ ", 0))"), r3.2)) := by
  cases a <;> rfl

/-- A compile call returns its input cache as the second component
(packaged as a pair equation for rewriting). -/
theorem compile_pair (c : MetricsCompiler) (κ : MCache) (e : MetricExpr) :
    c.compile κ e = ((c.compile κ e).1, κ) := by
  conv_lhs => rw [← Prod.mk.eta (p := c.compile κ e)]
  rw [compile_cache_invariant]

/-- Claim C1: for every target dialect and every
`DivideExpr(numerator, denominator, alternate)`, the compiled output
guards the zero denominator: the BI dialect renders its native
`DIVIDE(num, den, alt)` with the alternate (default `0`) as third
argument; the python dialect renders a conditional testing the
denominator against 0; SQL dialects render
`CASE WHEN den = 0 THEN alt ELSE num / den END` exactly when the
per-dialect `null_safe_divide` flag is set and `num / NULLIF(den, 0)`
otherwise — the choice depends only on the dialect profile (the
conditions mention only the compiler record, never the expression), and
the flag is set for tsql but not for postgres or spark. -/
theorem divide_compilation_guards_zero :
    (∀ (target : String) (κ : MCache) (n d : MetricExpr) (a : MOpt),
      ((MetricsCompiler.create target).compile κ (.divide n d a)).1 =
        (let c := MetricsCompiler.create target
         let ns := (c.compile κ n).1
         let ds := (c.compile κ d).1
         let alts := match a with | .some x => (c.compile κ x).1 | .none => "0"
         if c.isDax then "DIVIDE(" ++ ns ++ ", " ++ ds ++ ", " ++ alts ++ ")"
         else if c.target = "python" then
           "(" ++ ns ++ " / " ++ ds ++ " if " ++ ds ++ " != 0 else " ++ alts ++ ")"
         else if c.null_safe_divide then
           "CASE WHEN " ++ ds ++ " = 0 THEN " ++ alts ++ " ELSE " ++ ns ++ " / " ++
             ds ++ " END"
         else "(" ++ ns ++ " / NULLIF(" ++ ds ++ ", 0))")) ∧
    (MetricsCompiler.create "tsql").null_safe_divide = true ∧
    (MetricsCompiler.create "sqlserver").null_safe_divide = true ∧
    (MetricsCompiler.create "postgres").null_safe_divide = false ∧
    (MetricsCompiler.create "spark").null_safe_divide = false ∧
    (MetricsCompiler.create "dax").isDax = true ∧
    (MetricsCompiler.create "python").target = "python" := by
  refine ⟨?_, by decide, by decide, by decide, by decide, by decide, by decide⟩
  intro t κ n d a
  simp only [compile_divide_unfold]
  cases a with
  | none =>
    rw [compile_pair (MetricsCompiler.create t) κ n]
  | some x =>
    rw [compile_pair (MetricsCompiler.create t) κ n,
      compile_pair (MetricsCompiler.create t) κ d]

/-- Claim C3: dependency extraction returns exactly the metric codes
occurring anywhere in the tree (across every containing node kind the
traversal visits), as a deduplicated sorted list; the traversal is a
pure function of the immutable tree, so it has no side effects on it. -/
theorem dependency_extraction_exact :
    ∀ (e : MetricExpr),
      List.Sorted (· ≤ ·) (extract_dependencies e) ∧
      (extract_dependencies e).Nodup ∧
      (∀ x, x ∈ extract_dependencies e ↔ occursCode x e = true) := by
  intro e
  refine ⟨List.sorted_insertionSort _ _, ?_, ?_⟩
  · exact (List.perm_insertionSort _ _).nodup_iff.mpr ((depsWalk e).nodup_dedup)
  · intro x
    simp only [extract_dependencies]
    rw [(List.perm_insertionSort _ _).mem_iff, List.mem_dedup, mem_depsWalk]

/-- Claim C9: the caller-supplied metrics lookup map is left unchanged
by metric compilation: no compile branch writes the threaded cache, and
`compile_metric` (which installs a copy of the lookup as the compiler
cache) hands the caller map back exactly as supplied. -/
theorem compile_metric_lookup_unchanged :
    (∀ (c : MetricsCompiler) (κ : MCache) (e : MetricExpr), (c.compile κ e).2 = κ) ∧
    (∀ (metric_def : DVal) (target : String) (lookup : MCache),
      (compile_metric metric_def target lookup).2 = lookup) := by
  refine ⟨compile_cache_invariant, ?_⟩
  intro md t lookup
  cases md <;> try rfl
  simp only [compile_metric]
  split <;> rfl

end OZMeta

namespace OZMeta

set_option maxRecDepth 20000

/-- Claim C4: compiling the empty guard document (no `expr` key) yields
exactly the dialect true-literal for every target: `1` for
tsql/sqlserver and `TRUE` for every other target (postgres, snowflake,
spark, bigquery and the ANSI default) — no guard means allow-all. -/
theorem compile_guard_empty_default_allow :
    ∀ (jl : String → Option DVal) (target : String),
      compile_dsl jl (.vObj .nil) target = some (DSLCompiler.create target).true_lit ∧
      (DSLCompiler.create target).true_lit =
        (if pyLower target = "tsql" ∨ pyLower target = "sqlserver" then "1" else "TRUE") := by
  intro jl t
  refine ⟨rfl, ?_⟩
  simp only [DSLCompiler.create]
  split
  · simp_all
  · repeat first | rfl | split

/-- The concrete guard document of the spec scenario:
`expr = and(eq(ref Status, lit Active), in(ref Type, lit A, lit B))`. -/
def c5doc : DVal :=
  dObj [("expr", dObj [("op", .vStr "and"), ("args", dArr
    [ dObj [("op", .vStr "eq"), ("args", dArr
        [dObj [("ref", .vStr "Status")], dObj [("lit", .vStr "Active")]])],
      dObj [("op", .vStr "in"), ("args", dArr
        [dObj [("ref", .vStr "Type")], dObj [("lit", .vStr "A")],
         dObj [("lit", .vStr "B")]])]
    ])])]

/-- Claim C5: the scenario document compiles for tsql to text containing
`[Status] = quoted Active`, the joining `AND`, and `[Type] IN (quoted A, B)`;
for postgres the same structure with `"Status"` (double-quoted) in
place of `[Status]`.  The first two conjuncts give the full rendered
text, the remaining ones the required fragments. -/
theorem guard_scenario_status_type :
    ∀ (jl : String → Option DVal),
      compile_dsl jl c5doc "tsql" =
        some "(([Status] = 'Active') AND ([Type] IN ('A', 'B')))" ∧
      compile_dsl jl c5doc "postgres" =
        some "((\"Status\" = 'Active') AND (\"Type\" IN ('A', 'B')))" ∧
      pyInStr "[Status] = 'Active'"
        "(([Status] = 'Active') AND ([Type] IN ('A', 'B')))" = true ∧
      pyInStr " AND " "(([Status] = 'Active') AND ([Type] IN ('A', 'B')))" = true ∧
      pyInStr "[Type] IN ('A', 'B')"
        "(([Status] = 'Active') AND ([Type] IN ('A', 'B')))" = true ∧
      pyInStr "\"Status\" = 'Active'"
        "((\"Status\" = 'Active') AND (\"Type\" IN ('A', 'B')))" = true ∧
      pyInStr " AND " "((\"Status\" = 'Active') AND (\"Type\" IN ('A', 'B')))" = true ∧
      pyInStr "\"Type\" IN ('A', 'B')"
        "((\"Status\" = 'Active') AND (\"Type\" IN ('A', 'B')))" = true := by
  intro jl
  exact ⟨rfl, rfl, by decide, by decide, by decide, by decide, by decide, by decide⟩

/-- Claim C6: `compile_guard("allow")` equals
`compile_guard({"expr": true})` for every dialect (both reduce to the
dialect true-literal), and `compile_guard("tenant")` renders the
tenant-equality whose right operand is exactly the dialect
tenant-context expression (`SESSION_CONTEXT(N TenantId)` for tsql,
`current_setting(app.tenant_id)` for postgres, ...), so the output
contains it. -/
theorem guard_shorthand_equivalence :
    ∀ (jl : String → Option DVal) (target : String),
      compile_dsl jl (.vStr "allow") target =
        compile_dsl jl (dObj [("expr", .vBool true)]) target ∧
      compile_dsl jl (.vStr "allow") target =
        some (DSLCompiler.create target).true_lit ∧
      compile_dsl jl (.vStr "tenant") target =
        some ("(" ++ (DSLCompiler.create target).quote_identifier "_TenantID" ++ " = " ++
          (DSLCompiler.create target).context_tenant_id ++ ")") ∧
      (DSLCompiler.create "tsql").context_tenant_id = "SESSION_CONTEXT(N'TenantId')" ∧
      (DSLCompiler.create "postgres").context_tenant_id =
        "current_setting('app.tenant_id')" := by
  intro jl t
  exact ⟨rfl, rfl, rfl, by decide, by decide⟩

end OZMeta

namespace OZMeta

/-- Claim C8 counterexample: with only a red threshold (yellow and
green absent), direction HigherIsBetter, target tsql, the status
expression is a binary Green/Red CASE whose fall-through is `Red` and
whose text does not contain `Yellow` at all — refuting the claim that
any partial threshold configuration classifies the unmatched case as
`Yellow`. -/
theorem kpi_partial_threshold_counterexample :
    kpi_status_sql "[M1]" "HigherIsBetter" (some (.vInt 100000)) none none =
      "CASE WHEN [M1] >= 100000 THEN 'Green' ELSE 'Red' END" ∧
    pyInStr "Yellow"
      (kpi_status_sql "[M1]" "HigherIsBetter" (some (.vInt 100000)) none none) = false ∧
    (compile_kpi jlNone (dObj [("code", .vStr "K1"), ("metricCode", .vStr "M1"),
        ("direction", .vStr "HigherIsBetter"),
        ("thresholds", dObj [("red", .vInt 100000)])]) [] "tsql").map
      KpiResult.statusExpression =
      some "CASE WHEN [M1] >= 100000 THEN 'Green' ELSE 'Red' END" := by
  exact ⟨by decide, by decide, by decide⟩

/-- Claim C8 (amended): the tsql KPI status for thresholds
`{red: 100000, yellow: 500000}` (green absent), direction
HigherIsBetter, is a CASE whose first branch tests `>= 500000` (yellow
standing in for the absent green) and returns `Green`, with ELSE
`Yellow`; in general the unmatched case classifies as `Yellow`
whenever both red and yellow are supplied, while a red-only
configuration is a binary Green/Red classification and a configuration
without red yields `Unknown`. -/
theorem kpi_status_yellow_default :
    ((compile_kpi jlNone (dObj [("code", .vStr "K1"), ("metricCode", .vStr "M1"),
        ("direction", .vStr "HigherIsBetter"),
        ("thresholds", dObj [("red", .vInt 100000), ("yellow", .vInt 500000)])])
        [] "tsql").map KpiResult.statusExpression =
      some ("CASE\n    WHEN [M1] >= 500000 THEN 'Green'\n    WHEN [M1] >= 500000 " ++
        "THEN 'Yellow'\n    WHEN [M1] < 100000 THEN 'Red'\n    ELSE 'Yellow'\nEND")) ∧
    (∀ (m : String) (r y : DVal) (g : Option DVal),
      kpi_status_sql m "HigherIsBetter" (some r) (some y) g =
        "CASE\n    WHEN " ++ m ++ " >= " ++ greenOrYellow g (some y) ++
        " THEN 'Green'\n    WHEN " ++ m ++ " >= " ++ pyStr y ++
        " THEN 'Yellow'\n    WHEN " ++ m ++ " < " ++ pyStr r ++
        " THEN 'Red'\n    ELSE 'Yellow'\nEND") ∧
    (∀ (m : String) (r : DVal),
      kpi_status_sql m "HigherIsBetter" (some r) none none =
        "CASE WHEN " ++ m ++ " >= " ++ pyStr r ++ " THEN 'Green' ELSE 'Red' END") ∧
    (∀ (m : String) (y g : Option DVal),
      kpi_status_sql m "HigherIsBetter" none y g = "'Unknown'") := by
  refine ⟨by decide, ?_, ?_, ?_⟩
  · intro m r y g; rfl
  · intro m r; rfl
  · intro m y g; rfl

end OZMeta

namespace OZMeta

/-- For any fuel, a successful parse through the `agg` branch with an
unknown function name produces a SUM aggregation. -/
theorem parseMetricF_agg_sum (fuel : Nat) (kvs : DKV) (a : MetricExpr) (f : String)
    (hlit : kvs.hasKey "lit" = false)
    (hti : kvs.hasKey "timeIntel" = false)
    (hagg : kvs.lookup "agg" = some (.vStr f))
    (hunk : aggFuncOfString (pyUpper f) = none)
    (hp : parseMetricF fuel (.vObj kvs) = some a) :
    ∃ arg filt, a = .agg .SUM arg filt := by
  cases fuel with
  | zero => simp [parseMetricF] at hp
  | succ fl =>
    have hak : kvs.hasKey "agg" = true := by simp [DKV.hasKey, hagg]
    simp only [parseMetricF, hlit, hti, hak, Bool.false_eq_true, if_false, if_true] at hp
    cases fl with
    | zero => simp [parseAggF] at hp
    | succ fl2 =>
      simp only [parseAggF, hagg, hunk, Option.getD_none] at hp
      rcases hq : parseMetricF fl2 (kvs.getD "arg" (kvs.getD "field" (.vObj .nil))) with
        _ | arg
      · rw [hq] at hp; simp at hp
      · rw [hq] at hp
        rcases hf : kvs.lookup "filter" with _ | fv
        · rw [hf] at hp
          simp only [Option.some.injEq] at hp
          exact ⟨arg, .none, hp.symm⟩
        · rw [hf] at hp
          simp only [Option.some.injEq] at hp
          rcases hq2 : parseMetricF fl2 fv with _ | fe
          · rw [hq2] at hp; simp at hp
          · rw [hq2] at hp
            simp only [Option.some.injEq] at hp
            exact ⟨arg, .some fe, hp.symm⟩

/-- For any fuel, a successful parse through the `timeIntel` branch
with an unknown function name produces a YTD node. -/
theorem parseMetricF_ti_ytd (fuel : Nat) (kvs : DKV) (a : MetricExpr) (g : String)
    (hlit : kvs.hasKey "lit" = false)
    (hti : kvs.lookup "timeIntel" = some (.vStr g))
    (hunk : timeIntelOfString (pyUpper g) = none)
    (hp : parseMetricF fuel (.vObj kvs) = some a) :
    ∃ m dc off, a = .timeIntel .YTD m dc off := by
  cases fuel with
  | zero => simp [parseMetricF] at hp
  | succ fl =>
    have htk : kvs.hasKey "timeIntel" = true := by simp [DKV.hasKey, hti]
    simp only [parseMetricF, hlit, htk, Bool.false_eq_true, if_false, if_true] at hp
    cases fl with
    | zero => simp [parseTimeIntelF] at hp
    | succ fl2 =>
      simp only [parseTimeIntelF, hti, hunk, Option.getD_none] at hp
      rcases hq : parseMetricF fl2 (kvs.getD "metric" (kvs.getD "arg" (.vObj .nil))) with
        _ | m
      · rw [hq] at hp; simp at hp
      · rw [hq] at hp
        rcases hq2 : parse_field_ref (kvs.getD "dateColumn" (kvs.getD "date" (.vObj .nil)))
          with _ | dc
        · rw [hq2] at hp; simp at hp
        · rw [hq2] at hp
          simp only [Option.some.injEq] at hp
          exact ⟨m, dc, kvs.lookup "offset", hp.symm⟩

/-- Claim C10 counterexample: a structural document with an unknown
aggregation name and a malformed nested argument
(`{"op": "+", "args": []}` raises IndexError while the eager defaults
`node.get("args", [{}])[0]` are evaluated) makes parsing raise, so
"parsing never raises" is false as stated. -/
theorem metric_unknown_func_counterexample :
    parse_metric_formula (dObj [("agg", .vStr "FOO"),
      ("arg", dObj [("op", .vStr "+"), ("args", dArr [])])]) = none := by
  decide

/-- Claim C10 (amended): for a structural metric document whose `agg`
key holds a string not among the twelve recognized aggregation names
(after upper-casing) and which is dispatched to the aggregation branch
(no `lit`/`timeIntel` key), any successful parse silently yields an
`AggExpr` with `func = SUM`; likewise an unrecognized `timeIntel` name
yields `func = YTD` — the unknown name is coerced to a default, not
preserved as a generic call.  Parsing can still raise (return `none`)
when a nested sub-expression is malformed. -/
theorem metric_unknown_func_defaults :
    (∀ (kvs : DKV) (a : MetricExpr) (f : String),
      kvs.hasKey "lit" = false →
      kvs.hasKey "timeIntel" = false →
      kvs.lookup "agg" = some (.vStr f) →
      aggFuncOfString (pyUpper f) = none →
      parse_metric_formula (.vObj kvs) = some a →
      ∃ arg filt, a = .agg .SUM arg filt) ∧
    (∀ (kvs : DKV) (a : MetricExpr) (g : String),
      kvs.hasKey "lit" = false →
      kvs.lookup "timeIntel" = some (.vStr g) →
      timeIntelOfString (pyUpper g) = none →
      parse_metric_formula (.vObj kvs) = some a →
      ∃ m dc off, a = .timeIntel .YTD m dc off) := by
  constructor
  · intro kvs a f hlit hti hagg hunk hp
    exact parseMetricF_agg_sum _ kvs a f hlit hti hagg hunk hp
  · intro kvs a g hlit hti hunk hp
    exact parseMetricF_ti_ytd _ kvs a g hlit hti hunk hp

/-- Witness for the amended C10 theorem at concrete documents. -/
theorem metric_unknown_func_defaults_witness :
    (∃ arg filt, parse_metric_formula (dObj [("agg", .vStr "FOO"),
      ("arg", .vStr "Sales.Amount")]) = some (.agg .SUM arg filt)) ∧
    (∃ m dc off, parse_metric_formula (dObj [("timeIntel", .vStr "BAR"),
      ("metric", .vStr "[X]"),
      ("dateColumn", dObj [("ref", .vStr "Dates.Date")])]) =
      some (.timeIntel .YTD m dc off)) := by
  constructor
  · have h1 : parse_metric_formula (dObj [("agg", .vStr "FOO"),
        ("arg", .vStr "Sales.Amount")]) =
        some (.agg .SUM (.fieldRef (FieldRef.mk (.vStr "Sales") (.vStr "Amount") none))
          .none) := by decide
    obtain ⟨arg, filt, ha⟩ := metric_unknown_func_defaults.1
      (DKV.ofList [("agg", .vStr "FOO"), ("arg", .vStr "Sales.Amount")]) _ "FOO"
      (by decide) (by decide) (by decide) (by decide) h1
    exact ⟨arg, filt, by rw [h1, ha]⟩
  · have h1 : parse_metric_formula (dObj [("timeIntel", .vStr "BAR"),
        ("metric", .vStr "[X]"),
        ("dateColumn", dObj [("ref", .vStr "Dates.Date")])]) =
        some (.timeIntel .YTD (.metricRef "X")
          (FieldRef.mk (.vStr "Dates") (.vStr "Date") none) none) := by decide
    obtain ⟨m, dc, off, ha⟩ := metric_unknown_func_defaults.2
      (DKV.ofList [("timeIntel", .vStr "BAR"), ("metric", .vStr "[X]"),
        ("dateColumn", dObj [("ref", .vStr "Dates.Date")])]) _ "BAR"
      (by decide) (by decide) (by decide) h1
    exact ⟨m, dc, off, by rw [h1, ha]⟩

end OZMeta

namespace OZMeta

def GArgs.length : GArgs → Nat
  | .nil => 0
  | .cons _ t => t.length + 1

/-- The operator names `compile_op` recognizes (everything else takes
the uppercased-function-call fallback). -/
def recognizedGuardOps : List String :=
  ["and", "or", "not", "eq", "ne", "gt", "gte", "lt", "lte", "in",
   "isnull", "isnotnull", "add", "sub", "mul", "div", "contains",
   "startswith", "endswith", "concat", "regex", "dateadd",
   "datediffminutes", "coalesce", "case", "exists"]

/-- How many arguments the dispatch of `compile_op` indexes for a given
(lower-cased) operator name: the templates using `args[0]` need one,
those using `args[0]`/`args[1]` need two; joining operators, `dateadd`
(which degrades to `NULL`), `case` and unknown names accept any
count. -/
def opArityOk (o : String) (n : Nat) : Bool :=
  if o = "not" ∨ o = "isnull" ∨ o = "isnotnull" ∨ o = "exists" ∨ o = "in" then
    decide (1 ≤ n)
  else if o = "eq" ∨ o = "ne" ∨ o = "gt" ∨ o = "gte" ∨ o = "lt" ∨ o = "lte" ∨
      o = "add" ∨ o = "sub" ∨ o = "mul" ∨ o = "div" ∨ o = "contains" ∨
      o = "startswith" ∨ o = "endswith" ∨ o = "regex" ∨ o = "datediffminutes" then
    decide (2 ≤ n)
  else true

mutual

/-- Well-formedness of a guard expression for compilation: every
operator node carries a string name and at least the arguments its
template indexes, every reference path is a string, and any truthy cast
tag is a string.  (Exactly the shapes on which the Python compiler does
not raise.) -/
def guardArityOk : GExpr → Bool
  | .lit _ _ => true
  | .ref p castTo =>
    (match p with | .vStr _ => true | _ => false) &&
    (match castTo with
     | none => true
     | some cv => !cv.truthy || (match cv with | .vStr _ => true | _ => false))
  | .op name args =>
    (match name with
     | .vStr nm => opArityOk (pyLower nm) args.length
     | _ => false) &&
    guardArgsOk args

def guardArgsOk : GArgs → Bool
  | .nil => true
  | .cons h t => guardArityOk h && guardArgsOk t

end

/-- Helper: `renderOp` succeeds whenever the argument count satisfies the
operator arity and the case-parts are available. -/
theorem renderOp_total (c : DSLCompiler) (nm : String) (compiled : List String)
    (caseRes : Option (List String))
    (har : opArityOk (pyLower nm) compiled.length = true)
    (hc : caseRes.isSome = true) :
    (c.renderOp nm compiled caseRes).isSome = true := by
  simp only [DSLCompiler.renderOp]
  by_cases h1 : pyLower nm = "and"
  · simp [h1]
  by_cases h2 : pyLower nm = "or"
  · simp [h1, h2]
  by_cases h3 : pyLower nm = "not"
  · rw [h3] at har
    simp [opArityOk] at har
    rcases compiled with _ | ⟨a0, t0⟩
    · simp at har
    · simp [h1, h2, h3, unTemplate]
  by_cases h4 : pyLower nm = "eq"
  · rw [h4] at har
    simp [opArityOk] at har
    rcases compiled with _ | ⟨a0, _ | ⟨b0, t0⟩⟩
    · simp at har
    · simp at har
    · simp [h1, h2, h3, h4, binTemplate]
  by_cases h5 : pyLower nm = "ne"
  · rw [h5] at har
    simp [opArityOk] at har
    rcases compiled with _ | ⟨a0, _ | ⟨b0, t0⟩⟩
    · simp at har
    · simp at har
    · simp [h1, h2, h3, h4, h5, binTemplate]
  by_cases h6 : pyLower nm = "gt"
  · rw [h6] at har
    simp [opArityOk] at har
    rcases compiled with _ | ⟨a0, _ | ⟨b0, t0⟩⟩
    · simp at har
    · simp at har
    · simp [h1, h2, h3, h4, h5, h6, binTemplate]
  by_cases h7 : pyLower nm = "gte"
  · rw [h7] at har
    simp [opArityOk] at har
    rcases compiled with _ | ⟨a0, _ | ⟨b0, t0⟩⟩
    · simp at har
    · simp at har
    · simp [h1, h2, h3, h4, h5, h6, h7, binTemplate]
  by_cases h8 : pyLower nm = "lt"
  · rw [h8] at har
    simp [opArityOk] at har
    rcases compiled with _ | ⟨a0, _ | ⟨b0, t0⟩⟩
    · simp at har
    · simp at har
    · simp [h1, h2, h3, h4, h5, h6, h7, h8, binTemplate]
  by_cases h9 : pyLower nm = "lte"
  · rw [h9] at har
    simp [opArityOk] at har
    rcases compiled with _ | ⟨a0, _ | ⟨b0, t0⟩⟩
    · simp at har
    · simp at har
    · simp [h1, h2, h3, h4, h5, h6, h7, h8, h9, binTemplate]
  by_cases h10 : pyLower nm = "in"
  · rw [h10] at har
    simp [opArityOk] at har
    rcases compiled with _ | ⟨a0, t0⟩
    · simp at har
    · simp [h1, h2, h3, h4, h5, h6, h7, h8, h9, h10]
  by_cases h11 : pyLower nm = "isnull"
  · rw [h11] at har
    simp [opArityOk] at har
    rcases compiled with _ | ⟨a0, t0⟩
    · simp at har
    · simp [h1, h2, h3, h4, h5, h6, h7, h8, h9, h10, h11, unTemplate]
  by_cases h12 : pyLower nm = "isnotnull"
  · rw [h12] at har
    simp [opArityOk] at har
    rcases compiled with _ | ⟨a0, t0⟩
    · simp at har
    · simp [h1, h2, h3, h4, h5, h6, h7, h8, h9, h10, h11, h12, unTemplate]
  by_cases h13 : pyLower nm = "add"
  · rw [h13] at har
    simp [opArityOk] at har
    rcases compiled with _ | ⟨a0, _ | ⟨b0, t0⟩⟩
    · simp at har
    · simp at har
    · simp [h1, h2, h3, h4, h5, h6, h7, h8, h9, h10, h11, h12, h13, binTemplate]
  by_cases h14 : pyLower nm = "sub"
  · rw [h14] at har
    simp [opArityOk] at har
    rcases compiled with _ | ⟨a0, _ | ⟨b0, t0⟩⟩
    · simp at har
    · simp at har
    · simp [h1, h2, h3, h4, h5, h6, h7, h8, h9, h10, h11, h12, h13, h14, binTemplate]
  by_cases h15 : pyLower nm = "mul"
  · rw [h15] at har
    simp [opArityOk] at har
    rcases compiled with _ | ⟨a0, _ | ⟨b0, t0⟩⟩
    · simp at har
    · simp at har
    · simp [h1, h2, h3, h4, h5, h6, h7, h8, h9, h10, h11, h12, h13, h14, h15, binTemplate]
  by_cases h16 : pyLower nm = "div"
  · rw [h16] at har
    simp [opArityOk] at har
    rcases compiled with _ | ⟨a0, _ | ⟨b0, t0⟩⟩
    · simp at har
    · simp at har
    · simp [h1, h2, h3, h4, h5, h6, h7, h8, h9, h10, h11, h12, h13, h14, h15, h16, binTemplate]
  by_cases h17 : pyLower nm = "contains"
  · rw [h17] at har
    simp [opArityOk] at har
    rcases compiled with _ | ⟨a0, _ | ⟨b0, t0⟩⟩
    · simp at har
    · simp at har
    · simp [h1, h2, h3, h4, h5, h6, h7, h8, h9, h10, h11, h12, h13, h14, h15, h16, h17, binTemplate]
  by_cases h18 : pyLower nm = "startswith"
  · rw [h18] at har
    simp [opArityOk] at har
    rcases compiled with _ | ⟨a0, _ | ⟨b0, t0⟩⟩
    · simp at har
    · simp at har
    · simp [h1, h2, h3, h4, h5, h6, h7, h8, h9, h10, h11, h12, h13, h14, h15, h16, h17, h18, binTemplate]
  by_cases h19 : pyLower nm = "endswith"
  · rw [h19] at har
    simp [opArityOk] at har
    rcases compiled with _ | ⟨a0, _ | ⟨b0, t0⟩⟩
    · simp at har
    · simp at har
    · simp [h1, h2, h3, h4, h5, h6, h7, h8, h9, h10, h11, h12, h13, h14, h15, h16, h17, h18, h19, binTemplate]
  by_cases h20 : pyLower nm = "concat"
  · simp [h1, h2, h3, h4, h5, h6, h7, h8, h9, h10, h11, h12, h13, h14, h15, h16, h17, h18, h19, h20]
  by_cases h21 : pyLower nm = "regex"
  · rw [h21] at har
    simp [opArityOk] at har
    rcases compiled with _ | ⟨a0, _ | ⟨b0, t0⟩⟩
    · simp at har
    · simp at har
    · simp [h1, h2, h3, h4, h5, h6, h7, h8, h9, h10, h11, h12, h13, h14, h15, h16, h17, h18, h19, h20, h21, binTemplate]
  by_cases h22 : pyLower nm = "dateadd"
  · simp [h1, h2, h3, h4, h5, h6, h7, h8, h9, h10, h11, h12, h13, h14, h15, h16, h17, h18, h19, h20, h21, h22]
  by_cases h23 : pyLower nm = "datediffminutes"
  · rw [h23] at har
    simp [opArityOk] at har
    rcases compiled with _ | ⟨a0, _ | ⟨b0, t0⟩⟩
    · simp at har
    · simp at har
    · simp [h1, h2, h3, h4, h5, h6, h7, h8, h9, h10, h11, h12, h13, h14, h15, h16, h17, h18, h19, h20, h21, h22, h23, binTemplate]
  by_cases h24 : pyLower nm = "coalesce"
  · simp [h1, h2, h3, h4, h5, h6, h7, h8, h9, h10, h11, h12, h13, h14, h15, h16, h17, h18, h19, h20, h21, h22, h23, h24]
  by_cases h25 : pyLower nm = "case"
  · rcases hcr : caseRes with _ | parts
    · rw [hcr] at hc; simp at hc
    · simp [h1, h2, h3, h4, h5, h6, h7, h8, h9, h10, h11, h12, h13, h14, h15, h16, h17, h18, h19, h20, h21, h22, h23, h24, h25]
  by_cases h26 : pyLower nm = "exists"
  · rw [h26] at har
    simp [opArityOk] at har
    rcases compiled with _ | ⟨a0, t0⟩
    · simp at har
    · simp [h1, h2, h3, h4, h5, h6, h7, h8, h9, h10, h11, h12, h13, h14, h15, h16, h17, h18, h19, h20, h21, h22, h23, h24, h25, h26, unTemplate]
  simp [h1, h2, h3, h4, h5, h6, h7, h8, h9, h10, h11, h12, h13, h14, h15, h16, h17, h18, h19, h20, h21, h22, h23, h24, h25, h26]

end OZMeta

namespace OZMeta

/-- Helper: `compile_ref` succeeds on a string path with a well-formed cast. -/
theorem compile_ref_total (c : DSLCompiler) (ctx : List (String × String)) (s : String)
    (castTo : Option DVal)
    (h : (match castTo with
          | none => true
          | some cv => !cv.truthy || (match cv with | .vStr _ => true | _ => false)) = true) :
    (c.compile_ref (.vStr s) castTo ctx).isSome = true := by
  simp only [DSLCompiler.compile_ref]
  rcases hctx : ctx.lookup s with _ | v
  · cases castTo with
    | none => repeat first | rfl | split
    | some cv =>
      rcases cv with _ | b | n | fs | s2 | l2 | k2 <;>
        (try simp only [DVal.truthy, Bool.not_eq_true, Bool.or_eq_true,
          decide_eq_true_eq] at h) <;>
        (try simp only [DVal.truthy]) <;>
        (repeat first | rfl | split | simp_all)
  · simp

mutual

/-- Guard compilation is total on well-formed expressions: no exception
is raised (the amended universal part of the never-raises claim). -/
theorem guard_compile_total (c : DSLCompiler) (ctx : List (String × String)) :
    ∀ (e : GExpr), guardArityOk e = true → (c.compile_expr ctx e).isSome = true
  | .lit v ty, _ => rfl
  | .ref .vNull castTo, h => by simp [guardArityOk] at h
  | .ref (.vBool b) castTo, h => by simp [guardArityOk] at h
  | .ref (.vInt n) castTo, h => by simp [guardArityOk] at h
  | .ref (.vFloatStr s) castTo, h => by simp [guardArityOk] at h
  | .ref (.vArr l) castTo, h => by simp [guardArityOk] at h
  | .ref (.vObj kvs) castTo, h => by simp [guardArityOk] at h
  | .ref (.vStr s) castTo, h => by
    simp only [guardArityOk, Bool.true_and] at h
    exact compile_ref_total c ctx s castTo h
  | .op .vNull args, h => by simp [guardArityOk] at h
  | .op (.vBool b) args, h => by simp [guardArityOk] at h
  | .op (.vInt n) args, h => by simp [guardArityOk] at h
  | .op (.vFloatStr s) args, h => by simp [guardArityOk] at h
  | .op (.vArr l) args, h => by simp [guardArityOk] at h
  | .op (.vObj kvs) args, h => by simp [guardArityOk] at h
  | .op (.vStr nm) args, h => by
    simp only [guardArityOk, Bool.and_eq_true] at h
    obtain ⟨har, hargs⟩ := h
    obtain ⟨l, hl, hlen⟩ := guard_compileArgs_total c ctx args hargs
    have hcp := guard_caseParts_total c ctx args hargs
    simp only [DSLCompiler.compile_expr]
    rw [hl]
    exact renderOp_total c nm l _ (by rw [hlen]; exact har) hcp

theorem guard_compileArgs_total (c : DSLCompiler) (ctx : List (String × String)) :
    ∀ (args : GArgs), guardArgsOk args = true →
      ∃ l, c.compileArgs ctx args = some l ∧ l.length = args.length
  | .nil, _ => ⟨[], rfl, rfl⟩
  | .cons h t, hok => by
    simp only [guardArgsOk, Bool.and_eq_true] at hok
    have h1 := guard_compile_total c ctx h hok.1
    obtain ⟨l, hl, hlen⟩ := guard_compileArgs_total c ctx t hok.2
    rcases hq : c.compile_expr ctx h with _ | s
    · rw [hq] at h1; simp at h1
    · refine ⟨s :: l, ?_, by simp [hlen, GArgs.length]⟩
      simp only [DSLCompiler.compileArgs, hq, hl]

theorem guard_caseParts_total (c : DSLCompiler) (ctx : List (String × String)) :
    ∀ (args : GArgs), guardArgsOk args = true →
      (c.compileCaseParts ctx args).isSome = true
  | .nil, _ => rfl
  | .cons a .nil, hok => by
    simp only [guardArgsOk, Bool.and_eq_true] at hok
    have h1 := guard_compile_total c ctx a hok.1
    rcases hq : c.compile_expr ctx a with _ | s
    · rw [hq] at h1; simp at h1
    · simp only [DSLCompiler.compileCaseParts, hq]; rfl
  | .cons a (.cons b rest), hok => by
    simp only [guardArgsOk, Bool.and_eq_true] at hok
    have h1 := guard_compile_total c ctx a hok.1
    have h2 := guard_compile_total c ctx b hok.2.1
    have h3 := guard_caseParts_total c ctx rest hok.2.2
    rcases hq1 : c.compile_expr ctx a with _ | ea
    · rw [hq1] at h1; simp at h1
    · rcases hq2 : c.compile_expr ctx b with _ | eb
      · rw [hq2] at h2; simp at h2
      · rcases hq3 : c.compileCaseParts ctx rest with _ | parts
        · rw [hq3] at h3; simp at h3
        · simp only [DSLCompiler.compileCaseParts, hq1, hq2, hq3]; rfl

end

end OZMeta

namespace OZMeta

/-- Claim C2 counterexample: the document
`{"expr": {"op": "eq", "args": []}}` makes the pipeline raise
(IndexError on `args[0]` in the `eq` template), so "never raises and
returns some text for every input document" is false as stated. -/
theorem guard_pipeline_counterexample :
    compile_dsl jlNone (dObj [("expr", dObj [("op", .vStr "eq"), ("args", dArr [])])])
      "tsql" = none := by
  decide

/-- Claim C2 (amended): the pipeline never raises and returns some text
for every input whose operator nodes are well-formed (string operator
names carrying at least the arguments their template indexes, string
reference paths, string-or-falsy cast tags): compilation of any such
expression succeeds for every dialect and context, the full
parse-and-compile pipeline succeeds on any document whose `expr` parses
to such an expression, and a malformed guard string (not a shorthand,
not JSON-decodable) degrades to the dialect false-literal rather than
an error. -/
theorem guard_pipeline_total_amended :
    (∀ (target : String) (ctx : List (String × String)) (e : GExpr),
      guardArityOk e = true →
      ∃ s, (DSLCompiler.create target).compile_expr ctx e = some s) ∧
    (∀ (jl : String → Option DVal) (target : String) (kvs : DKV) (raw : DVal)
      (e : GExpr),
      kvs.lookup "expr" = some raw →
      parse_expr raw = some e →
      guardArityOk e = true →
      ∃ s, compile_dsl jl (.vObj kvs) target = some s) ∧
    (∀ (jl : String → Option DVal) (target : String) (str : String),
      str ∉ ["allow", "true", "1=1", "deny", "false", "1=0", "tenant"] →
      jl str = none →
      compile_dsl jl (.vStr str) target =
        some (DSLCompiler.create target).false_lit) := by
  refine ⟨?_, ?_, ?_⟩
  · intro t ctx e he
    have h := guard_compile_total (DSLCompiler.create t) ctx e he
    exact Option.isSome_iff_exists.mp h
  · intro jl t kvs raw e hraw hpe he
    have h := guard_compile_total (DSLCompiler.create t) [] e he
    obtain ⟨s, hs⟩ := Option.isSome_iff_exists.mp h
    refine ⟨s, ?_⟩
    simp only [compile_dsl, DSLCompiler.compile_guard, hraw, hpe, hs]
  · intro jl t str hmem hjl
    simp only [List.mem_cons, List.mem_singleton, not_or] at hmem
    obtain ⟨h1, h2, h3, h4, h5, h6, h7⟩ := hmem
    simp only [compile_dsl, DSLCompiler.compile_guard, parse_dsl, h1, h2, h3, h4, h5, h6, h7,
      hjl, or_self, if_false, guardFalseResult]
    rfl

/-- Witness for the amended C2 theorem at concrete inputs. -/
theorem guard_pipeline_total_amended_witness :
    (∃ s, (DSLCompiler.create "tsql").compile_expr []
      (.op (.vStr "and") (.cons (.lit (.vBool true) none) .nil)) = some s) ∧
    (∃ s, compile_dsl jlNone
      (dObj [("expr", dObj [("op", .vStr "not"),
        ("args", dArr [dObj [("lit", .vBool true)]])])]) "tsql" = some s) ∧
    compile_dsl jlNone (.vStr "zzz") "postgres" = some "FALSE" := by
  refine ⟨?_, ?_, ?_⟩
  · exact guard_pipeline_total_amended.1 "tsql" [] _ (by decide)
  · exact guard_pipeline_total_amended.2.1 jlNone "tsql"
      (DKV.ofList [("expr", dObj [("op", .vStr "not"),
        ("args", dArr [dObj [("lit", .vBool true)]])])])
      (dObj [("op", .vStr "not"), ("args", dArr [dObj [("lit", .vBool true)]])])
      (.op (.vStr "not") (.cons (.lit (.vBool true) none) .nil))
      (by decide) (by decide) (by decide)
  · exact (guard_pipeline_total_amended.2.2 jlNone "postgres" "zzz"
      (by decide) rfl).trans (by decide)

/-- Claim C7 counterexample: an unknown operator applied to an argument
list containing a malformed known operator (`not` with no arguments)
raises while the arguments are compiled, so "never raises ... for every
argument list" is false as stated. -/
theorem unknown_op_counterexample :
    (DSLCompiler.create "tsql").compile_op (.vStr "foo")
      (.cons (.op (.vStr "not") .nil) .nil) [] = none := by
  decide

/-- Claim C7 (amended): an `Op` whose lower-cased name is not one of
the recognized guard operators renders as the upper-cased name applied
as a function call to the comma-separated compiled arguments —
`NAME(arg1, arg2, ...)`, including the empty list — provided each
argument itself compiles (a malformed argument still raises, since all
arguments are compiled before dispatch). -/
theorem unknown_op_renders_call :
    ∀ (c : DSLCompiler) (ctx : List (String × String)) (nm : String) (args : GArgs)
      (l : List String),
      pyLower nm ∉ recognizedGuardOps →
      c.compileArgs ctx args = some l →
      c.compile_op (.vStr nm) args ctx =
        some (pyUpper (pyLower nm) ++ "(" ++ String.intercalate ", " l ++ ")") := by
  intro c ctx nm args l hmem hl
  simp only [recognizedGuardOps, List.mem_cons, List.mem_singleton, not_or] at hmem
  obtain ⟨h1, h2, h3, h4, h5, h6, h7, h8, h9, h10, h11, h12, h13, h14, h15, h16, h17, h18, h19, h20, h21, h22, h23, h24, h25, h26⟩ := hmem
  simp only [DSLCompiler.compile_op, DSLCompiler.compile_expr, hl,
    DSLCompiler.renderOp, h1, h2, h3, h4, h5, h6, h7, h8, h9, h10, h11, h12, h13, h14, h15, h16, h17, h18, h19, h20, h21, h22, h23, h24, h25, h26, if_false]

/-- Witness for the amended C7 theorem at a concrete input (and at the
empty argument list). -/
theorem unknown_op_renders_call_witness :
    (DSLCompiler.create "tsql").compile_op (.vStr "matches")
      (.cons (.lit (.vBool true) none) .nil) [] = some "MATCHES(1)" ∧
    (DSLCompiler.create "tsql").compile_op (.vStr "foo") .nil [] = some "FOO()" := by
  constructor
  · exact (unknown_op_renders_call (DSLCompiler.create "tsql") [] "matches"
      (.cons (.lit (.vBool true) none) .nil) ["1"] (by decide) (by decide)).trans
      (by decide)
  · exact (unknown_op_renders_call (DSLCompiler.create "tsql") [] "foo"
      .nil [] (by decide) (by decide)).trans (by decide)

end OZMeta
